import Mathlib

/-!
# Life calendar wallpaper (80 years in weeks): layout, renderer and time position

A shallow embedding of `80Y-in-Weeks.js`.

Conventions of the embedding:

* JavaScript numbers are modelled by exact rationals (`ℚ`); values that the
  program forces to be whole (results of `Math.round`, `Math.floor`,
  `Math.ceil`, indices) are integers (`ℤ`).
* `Math.round x` is `⌊x + 1/2⌋` (ties go up), as in ECMAScript.
* The canvas is not modelled; what the renderer decides (positions, marker
  kind, colours, quote index) is returned as data.
* A `Date` is its time value: milliseconds since 1970-01-01T00:00:00Z, an
  integer. The calendar functions follow the ECMAScript definitions (`Day`,
  `DayFromYear`, `YearFromTime`, `MonthFromTime`, `DateFromTime`, `MakeDay`).
  Local time is UTC plus a fixed offset `tz` in milliseconds (no daylight
  saving changes); `tz = 0` is a machine running in UTC.
* The clock is read once: every `new Date()` of one run yields the same `now`
  (as it does under the `TEST_DATE` substitution of `main`).
-/

namespace LifeCalendar

/-! ## Constants -/

def YEARS : ℕ := 80
def WEEKS_PER_YEAR : ℕ := 52
def DAYS_PER_WEEK : ℕ := 7
def MILLISECONDS_PER_DAY : ℤ := 24 * 60 * 60 * 1000
def DEFAULT_WIDTH : ℕ := 1920
def DEFAULT_HEIGHT : ℕ := 1080

/-! ## Sizing profiles (`SPACING_SCALE`) -/

/-- One entry of `SPACING_SCALE`. -/
structure SizingProfile where
  minWidth : ℚ
  circleRadiusPercent : ℚ
  cellPaddingPercent : ℚ
  labelFrequency : ℕ
  deriving DecidableEq

namespace SPACING_SCALE

def small : SizingProfile :=
  { minWidth := 0, circleRadiusPercent := 0.38, cellPaddingPercent := 0.18, labelFrequency := 4 }

def medium : SizingProfile :=
  { minWidth := 1600, circleRadiusPercent := 0.40, cellPaddingPercent := 0.18, labelFrequency := 4 }

def large : SizingProfile :=
  { minWidth := 2560, circleRadiusPercent := 0.42, cellPaddingPercent := 0.18, labelFrequency := 4 }

def xl : SizingProfile :=
  { minWidth := 3440, circleRadiusPercent := 0.44, cellPaddingPercent := 0.18, labelFrequency := 4 }

/-- The profiles in insertion order: what `Object.values(SPACING_SCALE)` enumerates. -/
def values : List SizingProfile := [small, medium, large, xl]

end SPACING_SCALE

/-- The body of the `for ... of` loop of `getSizingForResolution`: `sizing` is the
profile kept so far; the loop stops (`break`) at the first profile whose
`minWidth` exceeds the width. -/
def getSizingLoop (width : ℚ) : List SizingProfile → SizingProfile → SizingProfile
  | [], sizing => sizing
  | size :: rest, sizing =>
    if width ≥ size.minWidth then getSizingLoop width rest size else sizing

/-- The function `getSizingForResolution(width)`. -/
def getSizingForResolution (width : ℚ) : SizingProfile :=
  getSizingLoop width SPACING_SCALE.values SPACING_SCALE.small

/-! ## Scaling and cell size -/

/-- The function `Math.round` on exact rationals: nearest integer, ties towards `+∞`. -/
def Math_round (x : ℚ) : ℤ := ⌊x + 1 / 2⌋

/-- The function `scaleForResolution(baseValue, screenWidth)`. -/
def scaleForResolution (baseValue : ℚ) (screenWidth : ℚ) : ℤ :=
  let scaleFactor := screenWidth / (DEFAULT_WIDTH : ℚ)
  max 1 (Math_round (baseValue * scaleFactor))

/-- The object returned by `calculateCellSize`. -/
structure CellSizing where
  cellSize : ℚ
  circleRadius : ℤ
  cellPadding : ℚ
  labelFrequency : ℕ

/-- The function `calculateCellSize(width, height)`. -/
def calculateCellSize (width height : ℚ) : CellSizing :=
  let usableWidth := width * 0.85
  let usableHeight := height * 0.75
  let maxCellWidth := usableWidth / (YEARS : ℚ)
  let maxCellHeight := usableHeight / (WEEKS_PER_YEAR : ℚ)
  let cellSize := min maxCellWidth maxCellHeight
  let cellSize := cellSize * 1.08
  let sizing := getSizingForResolution width
  let circleRadius := max 3 (Math_round (cellSize * sizing.circleRadiusPercent))
  let cellPadding := cellSize * sizing.cellPaddingPercent
  { cellSize := cellSize
    circleRadius := circleRadius
    cellPadding := cellPadding
    labelFrequency := sizing.labelFrequency }

/-! ## Positions computed by `generateWallpaper` -/

/-- The vertical and horizontal positions that `generateWallpaper` computes
before drawing, for a screen of the given size. -/
structure LayoutPlan where
  cellSize : ℚ
  circleRadius : ℤ
  gridWidth : ℚ
  gridHeight : ℚ
  gridX : ℚ
  gridY : ℚ
  quoteFontSize : ℤ
  attributionFontSize : ℤ
  markerSize : ℤ
  yearMarkersY : ℚ
  quoteY : ℚ
  attributionY : ℚ
  gridBottom : ℚ
  urbanCreditY : ℚ

/-- The position arithmetic of `generateWallpaper(lifePosition, config)` for a
detected screen of `width` by `height`. -/
def generateWallpaperLayout (width height : ℚ) : LayoutPlan :=
  let cs := calculateCellSize width height
  let cellSize := cs.cellSize
  let gridWidth := (YEARS : ℚ) * cellSize
  let gridHeight := (WEEKS_PER_YEAR : ℚ) * cellSize
  let gridX := (width - gridWidth) / 2
  let gridY := height * 0.08
  let quoteFontSize := scaleForResolution 24 width
  let attributionFontSize := scaleForResolution 12 width
  let markerSize := scaleForResolution 14 width
  let yearMarkersY := gridY - (scaleForResolution 10 width : ℚ)
  let totalSpacing := scaleForResolution 35 width
  let quoteY := yearMarkersY - (totalSpacing : ℚ)
  let attributionY := yearMarkersY - ((totalSpacing : ℚ) / 2) + ((attributionFontSize : ℚ) / 4)
  let gridBottom := gridY + gridHeight
  let spaceBelow := height - gridBottom
  let urbanCreditY := gridBottom + (spaceBelow * 0.33)
  { cellSize := cellSize
    circleRadius := cs.circleRadius
    gridWidth := gridWidth
    gridHeight := gridHeight
    gridX := gridX
    gridY := gridY
    quoteFontSize := quoteFontSize
    attributionFontSize := attributionFontSize
    markerSize := markerSize
    yearMarkersY := yearMarkersY
    quoteY := quoteY
    attributionY := attributionY
    gridBottom := gridBottom
    urbanCreditY := urbanCreditY }

/-! ## Themes and grid markers -/

/-- One palette of `THEMES`. -/
structure Theme where
  background : String
  pastWeeks : String
  currentWeek : String
  futureWeeks : String
  text : String
  attribution : String
  connectingLines : String
  gridMarkers : String
  yearLabels : String
  weekLabels : String
  deriving DecidableEq

namespace THEMES

def dark : Theme :=
  { background := "#121110"
    pastWeeks := "#f5f1e6"
    currentWeek := "#e5c98a"
    futureWeeks := "#f0d090"
    text := "#ffffff"
    attribution := "#e5c98a"
    connectingLines := "#e5c98ac0"
    gridMarkers := "#e5c98a"
    yearLabels := "#e5c98a"
    weekLabels := "#e5c98a" }

def light : Theme :=
  { background := "#FDF7E3"
    pastWeeks := "#3B3024"
    currentWeek := "#C1A97B"
    futureWeeks := "#C1A97B"
    text := "#5A4636"
    attribution := "#857C6D"
    connectingLines := "#C9B79F"
    gridMarkers := "#C9B79F"
    yearLabels := "#A89060"
    weekLabels := "#A89060" }

end THEMES

/-- The own property names of `Object.prototype`, which every object literal
inherits. Each of them holds a function, except `__proto__`, which yields the
prototype object itself; all of these values are truthy. -/
def Object_prototype_keys : List String :=
  ["constructor", "__defineGetter__", "__defineSetter__", "hasOwnProperty",
   "__lookupGetter__", "__lookupSetter__", "isPrototypeOf", "propertyIsEnumerable",
   "toString", "valueOf", "__proto__", "toLocaleString"]

/-- What a property lookup on the object `THEMES` can yield: one of its two
palettes, or the member of `Object.prototype` stored under an inherited key
(a value that has none of the colour fields). -/
inductive ThemeValue where
  | palette (theme : Theme)
  | inherited (key : String)
  deriving DecidableEq

/-- The lookup `THEMES[key]`: own properties first, then the prototype; `none`
stands for `undefined`. -/
def THEMES_lookup (key : String) : Option ThemeValue :=
  if key = "dark" then some (ThemeValue.palette THEMES.dark)
  else if key = "light" then some (ThemeValue.palette THEMES.light)
  else if key ∈ Object_prototype_keys then some (ThemeValue.inherited key)
  else none

/-- The function `getTheme(themeName)`, that is `THEMES[themeName] || THEMES.dark`.
A missing name (`none`) is the value `undefined`, whose property key is the
string `"undefined"`. Every value the lookup finds is truthy, so the right
operand is taken exactly when the lookup yields `undefined`. -/
def getTheme (themeName : Option String) : ThemeValue :=
  match THEMES_lookup (themeName.getD "undefined") with
  | some value => value
  | none => ThemeValue.palette THEMES.dark

/-- The value of `creditColor` in `generateWallpaper`:
`config.theme === 'dark' ? '#B08D57' : '#4C3A2C'`. -/
def creditColor (themeName : Option String) : String :=
  if themeName = some "dark" then "#B08D57" else "#4C3A2C"

/-- What the grid loop paints in one cell: a disc filled with `fillStyle`, or
a circle stroked with `strokeStyle` at `lineWidth` pixels and left unfilled. -/
inductive Marker where
  | filled (fillStyle : String)
  | outlined (strokeStyle : String) (lineWidth : ℕ)
  deriving DecidableEq

/-- The body of the grid loop of `generateWallpaper` for the cell `(year, week)`. -/
def gridMarker (theme : Theme) (totalWeeksLived : ℤ) (year week : ℕ) : Marker :=
  let currentPosition : ℤ := (year : ℤ) * (WEEKS_PER_YEAR : ℤ) + (week : ℤ)
  let isPastWeek : Bool := decide (currentPosition < totalWeeksLived)
  let isCurrentWeek : Bool := decide (currentPosition = totalWeeksLived)
  if isPastWeek then Marker.filled theme.pastWeeks
  else if isCurrentWeek then Marker.outlined theme.currentWeek 4
  else Marker.outlined theme.futureWeeks 1

/-- The grid loop of `generateWallpaper`: `week` is the outer loop, `year` the
inner one; each entry is `(year, week, marker)` in drawing order. -/
def drawGrid (theme : Theme) (totalWeeksLived : ℤ) : List (ℕ × ℕ × Marker) :=
  ((List.range WEEKS_PER_YEAR).map fun week =>
    (List.range YEARS).map fun year =>
      (year, week, gridMarker theme totalWeeksLived year week)).flatten

/-! ## Quote selection -/

/-- The fields of `config.json` that the program reads. -/
structure Config where
  birthdate : String
  theme : String
  quotes : List String
  attributions : List String

/-- The object returned by `calculateLifePosition`. -/
structure LifePosition where
  totalWeeksLived : ℤ
  currentYearOfLife : ℤ
  currentWeekOfYear : ℤ
  weekProgress : ℚ
  weeksUntilNextBirthday : ℤ

/-- The JavaScript remainder `a % n` on integers: the sign follows the dividend. -/
def jsRem (a n : ℤ) : ℤ := Int.tmod a n

/-- Array indexing `xs[i]` with an integer `i`: `none` stands for `undefined`. -/
def jsIndex {α : Type} (xs : List α) (i : ℤ) : Option α :=
  if 0 ≤ i then xs.get? i.toNat else none

/-- The value of `quoteIndex` in `generateWallpaper`, given the calendar week
`weekOfYear`, the life position and the configuration. -/
def quoteIndex (weekOfYear : ℤ) (lifePosition : LifePosition) (config : Config) : ℤ :=
  if weekOfYear = 1 ∨ lifePosition.currentWeekOfYear = 0 then 0
  else jsRem (weekOfYear - 1) (config.quotes.length : ℤ)

/-- The pair `(quote, attribution)` that `generateWallpaper` draws. -/
def selectQuote (weekOfYear : ℤ) (lifePosition : LifePosition) (config : Config) :
    Option String × Option String :=
  let quoteIndex := quoteIndex weekOfYear lifePosition config
  (jsIndex config.quotes quoteIndex, jsIndex config.attributions quoteIndex)

/-! ## Dates (ECMAScript time values) -/

def msPerDay : ℤ := 86400000

/-- Day number of a time value. -/
def Day (t : ℤ) : ℤ := t / msPerDay

/-- Milliseconds elapsed within the day of a time value. -/
def TimeWithinDay (t : ℤ) : ℤ := t % msPerDay

def DaysInYear (y : ℤ) : ℤ :=
  if y % 4 ≠ 0 then 365
  else if y % 100 ≠ 0 then 366
  else if y % 400 ≠ 0 then 365
  else 366

/-- Day number of the first day of year `y`. -/
def DayFromYear (y : ℤ) : ℤ :=
  365 * (y - 1970) + (y - 1969) / 4 - (y - 1901) / 100 + (y - 1601) / 400

/-- The year containing day number `d`: the largest `y` with `DayFromYear y ≤ d`
(see `YearFromDay_spec`), found from the mean year length and one correction step. -/
def YearFromDay (d : ℤ) : ℤ :=
  let y := 1970 + (400 * d) / 146097
  if DayFromYear (y + 1) ≤ d then y + 1
  else if DayFromYear y ≤ d then y
  else y - 1

def YearFromTime (t : ℤ) : ℤ := YearFromDay (Day t)

/-- The value 1 in a leap year, 0 otherwise. -/
def InLeapYear (y : ℤ) : ℤ := if DaysInYear y = 366 then 1 else 0

def DayWithinYear (t : ℤ) : ℤ := Day t - DayFromYear (YearFromTime t)

/-- Day within the year on which month `m` (0 = January) starts; `leap` is 0 or 1. -/
def MonthStart (m leap : ℤ) : ℤ :=
  if m = 0 then 0
  else if m = 1 then 31
  else if m = 2 then 59 + leap
  else if m = 3 then 90 + leap
  else if m = 4 then 120 + leap
  else if m = 5 then 151 + leap
  else if m = 6 then 181 + leap
  else if m = 7 then 212 + leap
  else if m = 8 then 243 + leap
  else if m = 9 then 273 + leap
  else if m = 10 then 304 + leap
  else 334 + leap

/-- Month of a time value, 0 = January. -/
def MonthFromTime (t : ℤ) : ℤ :=
  let d := DayWithinYear t
  let leap := InLeapYear (YearFromTime t)
  if d < 31 then 0
  else if d < 59 + leap then 1
  else if d < 90 + leap then 2
  else if d < 120 + leap then 3
  else if d < 151 + leap then 4
  else if d < 181 + leap then 5
  else if d < 212 + leap then 6
  else if d < 243 + leap then 7
  else if d < 273 + leap then 8
  else if d < 304 + leap then 9
  else if d < 334 + leap then 10
  else 11

/-- Day of the month of a time value, starting at 1. -/
def DateFromTime (t : ℤ) : ℤ :=
  DayWithinYear t - MonthStart (MonthFromTime t) (InLeapYear (YearFromTime t)) + 1

/-- Day of the week of a time value, 0 = Sunday. -/
def WeekDay (t : ℤ) : ℤ := (Day t + 4) % 7

def HourFromTime (t : ℤ) : ℤ := (t / 3600000) % 24
def MinFromTime (t : ℤ) : ℤ := (t / 60000) % 60
def SecFromTime (t : ℤ) : ℤ := (t / 1000) % 60

/-- Number of days of month `m` (0 = January); `leap` is 0 or 1. A date
`(y, m, d)` is a calendar date when `0 ≤ m ≤ 11` and
`1 ≤ d ≤ DaysInMonth m (InLeapYear y)`. -/
def DaysInMonth (m leap : ℤ) : ℤ :=
  if m = 1 then 28 + leap
  else if m = 3 ∨ m = 5 ∨ m = 8 ∨ m = 10 then 30
  else 31

/-- Day number of `date` (counted from 1) in month `month` of `year`; months
outside `0..11` carry into the year and days outside the month carry over. -/
def MakeDay (year month date : ℤ) : ℤ :=
  let ym := year + month / 12
  let mn := month % 12
  DayFromYear ym + MonthStart mn (InLeapYear ym) + date - 1

def MakeDate (day time : ℤ) : ℤ := day * msPerDay + time

/-- Local time of a time value, for a zone with the one fixed offset `tz`. This is
exact for a machine in UTC (`tz = 0`) and for zones without daylight saving; a
zone with daylight saving gives each date its own offset, which is not modelled. -/
def LocalTime (tz t : ℤ) : ℤ := t + tz

def UTC (tz t : ℤ) : ℤ := t - tz

/-- The constructor `new Date(year, month, date)`: local midnight of that date.
A year in `0..99` is taken as `1900 + year`. -/
def newDate (tz year month date : ℤ) : ℤ :=
  let yr := if 0 ≤ year ∧ year ≤ 99 then 1900 + year else year
  UTC tz (MakeDate (MakeDay yr month date) 0)

/-- The value of `new Date("YYYY-MM-DD")` for a date-only string: midnight UTC
of that day (`month` is 1..12 as written in the string). -/
def parseDate (year month date : ℤ) : ℤ := MakeDate (MakeDay year (month - 1) date) 0

def getFullYear (tz t : ℤ) : ℤ := YearFromTime (LocalTime tz t)
def getMonth (tz t : ℤ) : ℤ := MonthFromTime (LocalTime tz t)
def getDate (tz t : ℤ) : ℤ := DateFromTime (LocalTime tz t)
def getDay (tz t : ℤ) : ℤ := WeekDay (LocalTime tz t)
def getHours (tz t : ℤ) : ℤ := HourFromTime (LocalTime tz t)
def getMinutes (tz t : ℤ) : ℤ := MinFromTime (LocalTime tz t)
def getSeconds (tz t : ℤ) : ℤ := SecFromTime (LocalTime tz t)

/-- The value of `Math.floor(a / b)` for integers `a` and `b > 0`. -/
def floorDiv (a b : ℤ) : ℤ := a / b

/-- The value of `Math.ceil(a / b)` for integers `a` and `b > 0`. -/
def ceilDiv (a b : ℤ) : ℤ := -((-a) / b)

/-! ## Time position -/

/-- The function `getCurrentDayOfWeek()`, 0 = Monday. -/
def getCurrentDayOfWeek (tz now : ℤ) : ℤ :=
  let day := getDay tz now
  if day = 0 then 6 else day - 1

/-- The function `getDayProgress()`. -/
def getDayProgress (tz now : ℤ) : ℚ :=
  let hours := getHours tz now
  let minutes := getMinutes tz now
  let seconds := getSeconds tz now
  ((hours * 3600 + minutes * 60 + seconds : ℤ) : ℚ) / (24 * 3600)

/-- The function `getWeekOfYear()`. -/
def getWeekOfYear (tz now : ℤ) : ℤ :=
  let start := newDate tz (getFullYear tz now) 0 1
  let diff := now - start
  let oneWeek : ℤ := 7 * 24 * 60 * 60 * 1000
  ceilDiv diff oneWeek

/-- The function `calculateLifePosition(birthdate)`: `birth` is the time value of
`new Date(birthdate)`, `now` the one of `new Date()`. -/
def calculateLifePosition (tz birth now : ℤ) : LifePosition :=
  let birthMonth := getMonth tz birth
  let birthDay := getDate tz birth
  let currentYearBirthday := newDate tz (getFullYear tz now) birthMonth birthDay
  let previousYearBirthday := newDate tz (getFullYear tz now - 1) birthMonth birthDay
  let nextYearBirthday := newDate tz (getFullYear tz now + 1) birthMonth birthDay
  let cycleStart := if now ≥ currentYearBirthday then currentYearBirthday else previousYearBirthday
  let nextBirthday := if now ≥ currentYearBirthday then nextYearBirthday else currentYearBirthday
  let millisecondsSinceLastBirthday := now - cycleStart
  let daysSinceLastBirthday := floorDiv millisecondsSinceLastBirthday MILLISECONDS_PER_DAY
  let weeksSinceLastBirthday := floorDiv daysSinceLastBirthday (DAYS_PER_WEEK : ℤ)
  let yearsSinceBirth :=
    getFullYear tz now - getFullYear tz birth - (if now < currentYearBirthday then 1 else 0)
  let totalWeeksLived := (yearsSinceBirth * (WEEKS_PER_YEAR : ℤ)) + weeksSinceLastBirthday
  let millisecondsUntilNextBirthday := nextBirthday - now
  let daysUntilNextBirthday := ceilDiv millisecondsUntilNextBirthday MILLISECONDS_PER_DAY
  let weeksUntilNextBirthday := ceilDiv daysUntilNextBirthday (DAYS_PER_WEEK : ℤ)
  let currentDayOfWeek := getCurrentDayOfWeek tz now
  let dayProgress := getDayProgress tz now
  let weekProgress := ((currentDayOfWeek : ℚ) + dayProgress) / (DAYS_PER_WEEK : ℚ)
  { totalWeeksLived := totalWeeksLived
    currentYearOfLife := yearsSinceBirth
    currentWeekOfYear := weeksSinceLastBirthday
    weekProgress := weekProgress
    weeksUntilNextBirthday := weeksUntilNextBirthday }

/-! # Theorems -/

/-! ## Sizing profile selection -/

/-- The loop of `getSizingForResolution`, unrolled over the four profiles. -/
theorem getSizingForResolution_cases (w : ℚ) :
    getSizingForResolution w =
      if w < 1600 then SPACING_SCALE.small
      else if w < 2560 then SPACING_SCALE.medium
      else if w < 3440 then SPACING_SCALE.large
      else SPACING_SCALE.xl := by
  simp only [getSizingForResolution, SPACING_SCALE.values, getSizingLoop, SPACING_SCALE.small,
    SPACING_SCALE.medium, SPACING_SCALE.large, SPACING_SCALE.xl, ge_iff_le]
  split_ifs <;> first | rfl | (exfalso; linarith)

/-- Claim C1: for every width `w ≥ 0`, `getSizingForResolution w` is the profile of
`SPACING_SCALE` whose `minWidth` is the largest of the breakpoints 0, 1600, 2560,
3440 that is `≤ w`; a width equal to a breakpoint selects that breakpoint's
profile; 1920 gives the medium profile (0.40, label frequency 4) and 1024 the
small one. -/
theorem getSizingForResolution_largest_breakpoint (w : ℚ) (hw : 0 ≤ w) :
    SPACING_SCALE.values.map SizingProfile.minWidth = [0, 1600, 2560, 3440] ∧
    getSizingForResolution w ∈ SPACING_SCALE.values ∧
    (getSizingForResolution w).minWidth ≤ w ∧
    (∀ p ∈ SPACING_SCALE.values, p.minWidth ≤ w →
      p.minWidth ≤ (getSizingForResolution w).minWidth) ∧
    getSizingForResolution 1600 = SPACING_SCALE.medium ∧
    getSizingForResolution 2560 = SPACING_SCALE.large ∧
    getSizingForResolution 3440 = SPACING_SCALE.xl ∧
    getSizingForResolution 1920 = SPACING_SCALE.medium ∧
    (getSizingForResolution 1920).circleRadiusPercent = 0.40 ∧
    (getSizingForResolution 1920).labelFrequency = 4 ∧
    getSizingForResolution 1024 = SPACING_SCALE.small := by
  refine ⟨by simp [SPACING_SCALE.values, SPACING_SCALE.small, SPACING_SCALE.medium,
    SPACING_SCALE.large, SPACING_SCALE.xl], ?_, ?_, ?_, ?_, ?_, ?_, ?_, ?_, ?_, ?_⟩
  · rw [getSizingForResolution_cases]
    split_ifs <;> simp [SPACING_SCALE.values]
  · rw [getSizingForResolution_cases]
    split_ifs <;> simp only [SPACING_SCALE.small, SPACING_SCALE.medium, SPACING_SCALE.large,
      SPACING_SCALE.xl] <;> linarith
  · intro p hp hpw
    rw [getSizingForResolution_cases]
    simp only [SPACING_SCALE.values, List.mem_cons, List.mem_singleton, List.not_mem_nil,
      or_false] at hp
    rcases hp with rfl | rfl | rfl | rfl <;>
      simp only [SPACING_SCALE.small, SPACING_SCALE.medium, SPACING_SCALE.large,
        SPACING_SCALE.xl] at hpw ⊢ <;>
      split_ifs <;> linarith
  all_goals rw [getSizingForResolution_cases]; norm_num [SPACING_SCALE.medium]

/-- The statement of C1 at the default width 1920. -/
theorem getSizingForResolution_largest_breakpoint_witness :
    (0 : ℚ) ≤ 1920 ∧ (getSizingForResolution 1920).minWidth ≤ 1920 :=
  ⟨by norm_num, (getSizingForResolution_largest_breakpoint 1920 (by norm_num)).2.2.1⟩

/-! ## Cell size and layout -/

theorem Math_round_le (x : ℚ) : (Math_round x : ℚ) ≤ x + 1 / 2 := Int.floor_le _

theorem lt_Math_round (x : ℚ) : x - 1 / 2 < (Math_round x : ℚ) := by
  have := Int.lt_floor_add_one (x + 1 / 2)
  unfold Math_round
  linarith

theorem Math_round_mono {x y : ℚ} (h : x ≤ y) : Math_round x ≤ Math_round y :=
  Int.floor_mono (by linarith)

theorem scaleForResolution_pos (b w : ℚ) : 1 ≤ scaleForResolution b w := le_max_left _ _

theorem scaleForResolution_mono {b c : ℚ} (w : ℚ) (hw : 0 ≤ w) (h : b ≤ c) :
    scaleForResolution b w ≤ scaleForResolution c w := by
  unfold scaleForResolution
  apply max_le_max le_rfl
  apply Math_round_mono
  apply mul_le_mul_of_nonneg_right h
  apply div_nonneg hw
  simp [DEFAULT_WIDTH]

theorem scaleForResolution_le (b w : ℚ) (hb : 0 ≤ b) (hw : 1024 ≤ w) (hb1 : 1 ≤ b) :
    (scaleForResolution b w : ℚ) ≤ b * w / 1920 + 1 / 2 := by
  unfold scaleForResolution
  simp only [DEFAULT_WIDTH, Nat.cast_ofNat]
  rw [Int.cast_max]
  apply max_le
  · have : 0 ≤ b * w := by positivity
    have : (1:ℚ) * 1024 ≤ b * w := mul_le_mul hb1 hw (by norm_num) hb
    push_cast
    linarith
  · have := Math_round_le (b * (w / 1920))
    linarith [mul_div_assoc b w 1920]

theorem cellSize_eq (w h : ℚ) :
    (calculateCellSize w h).cellSize = min (w * 0.85 / 80) (h * 0.75 / 52) * 1.08 := by
  simp [calculateCellSize, YEARS, WEEKS_PER_YEAR]

theorem cellSize_pos (w h : ℚ) (hw : 0 < w) (hh : 0 < h) :
    0 < (calculateCellSize w h).cellSize := by
  rw [cellSize_eq]
  have h1 : 0 < w * 0.85 / 80 := by positivity
  have h2 : 0 < h * 0.75 / 52 := by positivity
  have := lt_min h1 h2
  positivity

theorem gridWidth_le (w h : ℚ) : 80 * (calculateCellSize w h).cellSize ≤ 0.918 * w := by
  rw [cellSize_eq]
  have hm := min_le_left (w * 0.85 / 80) (h * 0.75 / 52)
  generalize min (w * 0.85 / 80) (h * 0.75 / 52) = m at hm ⊢
  norm_num at hm ⊢
  linarith

theorem gridHeight_le (w h : ℚ) : 52 * (calculateCellSize w h).cellSize ≤ 0.81 * h := by
  rw [cellSize_eq]
  have hm := min_le_right (w * 0.85 / 80) (h * 0.75 / 52)
  generalize min (w * 0.85 / 80) (h * 0.75 / 52) = m at hm ⊢
  norm_num at hm ⊢
  linarith

/-- Claim C2: for every positive width and height the circle radius returned by
`calculateCellSize` (an integer: the larger of 3 and a `Math.round` result) is
never less than 3. -/
theorem calculateCellSize_circleRadius_ge_three (w h : ℚ) (_hw : 0 < w) (_hh : 0 < h) :
    3 ≤ (calculateCellSize w h).circleRadius ∧
    (calculateCellSize w h).circleRadius =
      max 3 (Math_round ((calculateCellSize w h).cellSize *
        (getSizingForResolution w).circleRadiusPercent)) :=
  ⟨le_max_left _ _, rfl⟩

/-- The statement of C2 on the smallest tested screen, 1024 by 768. -/
theorem calculateCellSize_circleRadius_ge_three_witness :
    (0 : ℚ) < 1024 ∧ (0 : ℚ) < 768 ∧ 3 ≤ (calculateCellSize 1024 768).circleRadius :=
  ⟨by norm_num, by norm_num,
    (calculateCellSize_circleRadius_ge_three 1024 768 (by norm_num) (by norm_num)).1⟩

theorem layout_gridWidth (w h : ℚ) :
    (generateWallpaperLayout w h).gridWidth = 80 * (calculateCellSize w h).cellSize := by
  simp [generateWallpaperLayout, YEARS]

theorem layout_gridHeight (w h : ℚ) :
    (generateWallpaperLayout w h).gridHeight = 52 * (calculateCellSize w h).cellSize := by
  simp [generateWallpaperLayout, WEEKS_PER_YEAR]

theorem layout_gridX (w h : ℚ) :
    (generateWallpaperLayout w h).gridX = (w - 80 * (calculateCellSize w h).cellSize) / 2 := by
  simp [generateWallpaperLayout, YEARS]

theorem layout_gridY (w h : ℚ) : (generateWallpaperLayout w h).gridY = h * 0.08 := rfl

theorem layout_yearMarkersY (w h : ℚ) :
    (generateWallpaperLayout w h).yearMarkersY = h * 0.08 - (scaleForResolution 10 w : ℚ) := rfl

theorem layout_quoteY (w h : ℚ) :
    (generateWallpaperLayout w h).quoteY =
      h * 0.08 - (scaleForResolution 10 w : ℚ) - (scaleForResolution 35 w : ℚ) := rfl

theorem layout_attributionY (w h : ℚ) :
    (generateWallpaperLayout w h).attributionY =
      h * 0.08 - (scaleForResolution 10 w : ℚ) - (scaleForResolution 35 w : ℚ) / 2 +
        (scaleForResolution 12 w : ℚ) / 4 := rfl

theorem layout_urbanCreditY (w h : ℚ) :
    (generateWallpaperLayout w h).urbanCreditY =
      h * 0.08 + 52 * (calculateCellSize w h).cellSize +
        (h - (h * 0.08 + 52 * (calculateCellSize w h).cellSize)) * 0.33 := by
  simp [generateWallpaperLayout, WEEKS_PER_YEAR]

/-- Claim C3: for every positive width and height the 80 by 52 grid rectangle of
`generateWallpaper` lies inside the screen (`0 ≤ gridX`, `gridX + gridWidth ≤ w`,
`0 ≤ gridY`, `gridY + gridHeight ≤ h`) and is horizontally centred: the left
margin `gridX` equals the right margin `w - (gridX + gridWidth)`. -/
theorem grid_inside_screen (w h : ℚ) (hw : 0 < w) (hh : 0 < h) :
    (generateWallpaperLayout w h).gridWidth = 80 * (calculateCellSize w h).cellSize ∧
    (generateWallpaperLayout w h).gridHeight = 52 * (calculateCellSize w h).cellSize ∧
    (generateWallpaperLayout w h).gridX = (w - (generateWallpaperLayout w h).gridWidth) / 2 ∧
    (generateWallpaperLayout w h).gridY = 0.08 * h ∧
    0 ≤ (generateWallpaperLayout w h).gridX ∧
    (generateWallpaperLayout w h).gridX + (generateWallpaperLayout w h).gridWidth ≤ w ∧
    0 ≤ (generateWallpaperLayout w h).gridY ∧
    (generateWallpaperLayout w h).gridY + (generateWallpaperLayout w h).gridHeight ≤ h ∧
    (generateWallpaperLayout w h).gridX =
      w - ((generateWallpaperLayout w h).gridX + (generateWallpaperLayout w h).gridWidth) := by
  have hW := gridWidth_le w h
  have hH := gridHeight_le w h
  rw [layout_gridWidth, layout_gridHeight, layout_gridX, layout_gridY]
  generalize (calculateCellSize w h).cellSize = c at hW hH ⊢
  norm_num at hW hH ⊢
  refine ⟨by ring, ?_, ?_, ?_, ?_, by ring⟩ <;> linarith

/-- The statement of C3 on the default screen, 1920 by 1080. -/
theorem grid_inside_screen_witness :
    (0 : ℚ) < 1920 ∧ (0 : ℚ) < 1080 ∧
    (generateWallpaperLayout 1920 1080).gridX + (generateWallpaperLayout 1920 1080).gridWidth
      ≤ 1920 :=
  ⟨by norm_num, by norm_num,
    (grid_inside_screen 1920 1080 (by norm_num) (by norm_num)).2.2.2.2.2.1⟩

theorem circleRadiusPercent_bounds (w : ℚ) :
    0 ≤ (getSizingForResolution w).circleRadiusPercent ∧
    (getSizingForResolution w).circleRadiusPercent ≤ 0.44 := by
  rw [getSizingForResolution_cases]
  split_ifs <;> norm_num [SPACING_SCALE.small, SPACING_SCALE.medium, SPACING_SCALE.large,
    SPACING_SCALE.xl]

theorem circleRadius_eq (w h : ℚ) :
    (calculateCellSize w h).circleRadius =
      max 3 (Math_round ((calculateCellSize w h).cellSize *
        (getSizingForResolution w).circleRadiusPercent)) := rfl

theorem cellSize_ge (w h : ℚ) (hw : 1024 ≤ w) (hh : 768 ≤ h) :
    11.7504 ≤ (calculateCellSize w h).cellSize := by
  rw [cellSize_eq]
  have h1 : (10.88 : ℚ) ≤ w * 0.85 / 80 := by norm_num; linarith
  have h2 : (10.88 : ℚ) ≤ h * 0.75 / 52 := by norm_num; linarith
  have := le_min h1 h2
  generalize min (w * 0.85 / 80) (h * 0.75 / 52) = m at this ⊢
  norm_num at this ⊢
  linarith

/-- Claim C4 fails as stated: on a 3840 by 1080 screen (width at least 1024, height
at least 768) the quote baseline `quoteY` is negative, above the top edge. -/
theorem labels_and_text_fit_counterexample :
    (1024 : ℚ) ≤ 3840 ∧ (768 : ℚ) ≤ 1080 ∧ (generateWallpaperLayout 3840 1080).quoteY < 0 := by
  rw [layout_quoteY]
  norm_num [scaleForResolution, Math_round, DEFAULT_WIDTH]

/-- Claim C4, amended: for a screen of width at least 1024 and height at least 768,
`yearMarkersY`, `quoteY`, `attributionY` and `urbanCreditY` all lie in `[0, h]`
exactly when the two scaled offsets above the grid fit into the top 8% of the
height, `scaleForResolution 10 w + scaleForResolution 35 w ≤ 0.08 * h`; this
holds whenever `w ≤ 3 * h`. -/
theorem labels_and_text_fit_iff (w h : ℚ) (hw : 1024 ≤ w) (hh : 768 ≤ h) :
    ((0 ≤ (generateWallpaperLayout w h).yearMarkersY ∧
        (generateWallpaperLayout w h).yearMarkersY ≤ h ∧
      0 ≤ (generateWallpaperLayout w h).quoteY ∧ (generateWallpaperLayout w h).quoteY ≤ h ∧
      0 ≤ (generateWallpaperLayout w h).attributionY ∧
        (generateWallpaperLayout w h).attributionY ≤ h ∧
      0 ≤ (generateWallpaperLayout w h).urbanCreditY ∧
        (generateWallpaperLayout w h).urbanCreditY ≤ h) ↔
      ((scaleForResolution 10 w : ℚ) + (scaleForResolution 35 w : ℚ) ≤ 0.08 * h)) ∧
    (w ≤ 3 * h → (scaleForResolution 10 w : ℚ) + (scaleForResolution 35 w : ℚ) ≤ 0.08 * h) := by
  have hw0 : (0 : ℚ) < w := by linarith
  have hh0 : (0 : ℚ) < h := by linarith
  have hH := gridHeight_le w h
  have hc := cellSize_pos w h hw0 hh0
  have h10 : (1 : ℚ) ≤ scaleForResolution 10 w := by exact_mod_cast scaleForResolution_pos 10 w
  have h35 : (1 : ℚ) ≤ scaleForResolution 35 w := by exact_mod_cast scaleForResolution_pos 35 w
  have h12 : (1 : ℚ) ≤ scaleForResolution 12 w := by exact_mod_cast scaleForResolution_pos 12 w
  have hle : (scaleForResolution 12 w : ℚ) ≤ scaleForResolution 35 w := by
    exact_mod_cast scaleForResolution_mono w hw0.le (by norm_num : (12 : ℚ) ≤ 35)
  have u10 := scaleForResolution_le 10 w (by norm_num) hw (by norm_num)
  have u35 := scaleForResolution_le 35 w (by norm_num) hw (by norm_num)
  rw [layout_quoteY, layout_attributionY, layout_yearMarkersY, layout_urbanCreditY]
  generalize (calculateCellSize w h).cellSize = c at hH hc ⊢
  generalize (scaleForResolution 10 w : ℚ) = s10 at h10 u10 ⊢
  generalize (scaleForResolution 35 w : ℚ) = s35 at h35 hle u35 ⊢
  generalize (scaleForResolution 12 w : ℚ) = s12 at h12 hle ⊢
  norm_num at hH ⊢
  refine ⟨⟨fun hx => by linarith [hx.2.2.1], fun hx => ?_⟩, fun hx => by linarith⟩
  refine ⟨?_, ?_, ?_, ?_, ?_, ?_, ?_, ?_⟩ <;> linarith

/-- The amended C4 on the default screen, 1920 by 1080. -/
theorem labels_and_text_fit_iff_witness :
    (1024 : ℚ) ≤ 1920 ∧ (768 : ℚ) ≤ 1080 ∧ (1920 : ℚ) ≤ 3 * 1080 ∧
      (scaleForResolution 10 1920 : ℚ) + (scaleForResolution 35 1920 : ℚ) ≤ 0.08 * 1080 :=
  ⟨by norm_num, by norm_num, by norm_num,
    (labels_and_text_fit_iff 1920 1080 (by norm_num) (by norm_num)).2 (by norm_num)⟩

/-- Claim C5: for every positive width and height the vertical positions of
`generateWallpaper` are strictly ordered from top to bottom:
`quoteY < attributionY < yearMarkersY < gridY < gridY + gridHeight < urbanCreditY < h`. -/
theorem vertical_positions_strictly_ordered (w h : ℚ) (hw : 0 < w) (hh : 0 < h) :
    (generateWallpaperLayout w h).quoteY < (generateWallpaperLayout w h).attributionY ∧
    (generateWallpaperLayout w h).attributionY < (generateWallpaperLayout w h).yearMarkersY ∧
    (generateWallpaperLayout w h).yearMarkersY < (generateWallpaperLayout w h).gridY ∧
    (generateWallpaperLayout w h).gridY <
      (generateWallpaperLayout w h).gridY + (generateWallpaperLayout w h).gridHeight ∧
    (generateWallpaperLayout w h).gridY + (generateWallpaperLayout w h).gridHeight <
      (generateWallpaperLayout w h).urbanCreditY ∧
    (generateWallpaperLayout w h).urbanCreditY < h := by
  have hH := gridHeight_le w h
  have hc := cellSize_pos w h hw hh
  have h10 : (1 : ℚ) ≤ scaleForResolution 10 w := by exact_mod_cast scaleForResolution_pos 10 w
  have h35 : (1 : ℚ) ≤ scaleForResolution 35 w := by exact_mod_cast scaleForResolution_pos 35 w
  have h12 : (1 : ℚ) ≤ scaleForResolution 12 w := by exact_mod_cast scaleForResolution_pos 12 w
  have hle : (scaleForResolution 12 w : ℚ) ≤ scaleForResolution 35 w := by
    exact_mod_cast scaleForResolution_mono w hw.le (by norm_num : (12 : ℚ) ≤ 35)
  rw [layout_quoteY, layout_attributionY, layout_yearMarkersY, layout_gridY, layout_gridHeight,
    layout_urbanCreditY]
  generalize (calculateCellSize w h).cellSize = c at hH hc ⊢
  generalize (scaleForResolution 10 w : ℚ) = s10 at h10 ⊢
  generalize (scaleForResolution 35 w : ℚ) = s35 at h35 hle ⊢
  generalize (scaleForResolution 12 w : ℚ) = s12 at h12 hle ⊢
  norm_num at hH ⊢
  refine ⟨?_, ?_, ?_, ?_, ?_, ?_⟩ <;> linarith

/-- The statement of C5 on the default screen, 1920 by 1080. -/
theorem vertical_positions_strictly_ordered_witness :
    (0 : ℚ) < 1920 ∧ (0 : ℚ) < 1080 ∧
    (generateWallpaperLayout 1920 1080).quoteY < (generateWallpaperLayout 1920 1080).attributionY :=
  ⟨by norm_num, by norm_num,
    (vertical_positions_strictly_ordered 1920 1080 (by norm_num) (by norm_num)).1⟩

/-- Claim C6: for a screen of width at least 1024 and height at least 768 the marker
diameter `2 * circleRadius` is at most `cellSize`, the distance between the
centres of neighbouring cells, for every sizing profile and for the 3px floor. -/
theorem markers_do_not_overlap (w h : ℚ) (hw : 1024 ≤ w) (hh : 768 ≤ h) :
    2 * ((calculateCellSize w h).circleRadius : ℚ) ≤ (calculateCellSize w h).cellSize := by
  have hc := cellSize_ge w h hw hh
  obtain ⟨hp0, hp1⟩ := circleRadiusPercent_bounds w
  rw [circleRadius_eq]
  have hr := Math_round_le ((calculateCellSize w h).cellSize *
    (getSizingForResolution w).circleRadiusPercent)
  generalize (calculateCellSize w h).cellSize = c at hc hr ⊢
  generalize (getSizingForResolution w).circleRadiusPercent = p at hp0 hp1 hr ⊢
  have hcp : c * p ≤ c * 0.44 := mul_le_mul_of_nonneg_left hp1 (by norm_num at hc ⊢; linarith)
  rw [Int.cast_max]
  rcases max_choice ((3 : ℤ) : ℚ) (Math_round (c * p) : ℚ) with hm | hm <;> rw [hm]
  · norm_num at hc ⊢; linarith
  · norm_num at hc hcp ⊢; linarith

/-- The statement of C6 on the smallest tested screen, 1024 by 768. -/
theorem markers_do_not_overlap_witness :
    (1024 : ℚ) ≤ 1024 ∧ (768 : ℚ) ≤ 768 ∧
      2 * ((calculateCellSize 1024 768).circleRadius : ℚ) ≤ (calculateCellSize 1024 768).cellSize :=
  ⟨by norm_num, by norm_num, markers_do_not_overlap 1024 768 (by norm_num) (by norm_num)⟩

/-! ## Grid markers and quote selection -/

/-- Claim C7: for every cell `(year, week)` of the grid and every `totalWeeksLived`,
the marker is decided by `index = year * 52 + week`: a disc filled in the
`pastWeeks` colour iff `index < totalWeeksLived`, an unfilled circle with a 4px
outline in the `currentWeek` colour iff `index = totalWeeksLived`, an unfilled
circle with a 1px outline in the `futureWeeks` colour iff `index > totalWeeksLived`;
the cell with `index = totalWeeksLived` is drawn neither as past nor as future. -/
theorem gridMarker_state (theme : Theme) (totalWeeksLived : ℤ) (year week : ℕ)
    (_hy : year < 80) (_hw : week < 52) :
    (gridMarker theme totalWeeksLived year week = Marker.filled theme.pastWeeks ↔
      (year : ℤ) * 52 + week < totalWeeksLived) ∧
    (gridMarker theme totalWeeksLived year week = Marker.outlined theme.currentWeek 4 ↔
      (year : ℤ) * 52 + week = totalWeeksLived) ∧
    (gridMarker theme totalWeeksLived year week = Marker.outlined theme.futureWeeks 1 ↔
      totalWeeksLived < (year : ℤ) * 52 + week) ∧
    ((year : ℤ) * 52 + week = totalWeeksLived →
      gridMarker theme totalWeeksLived year week ≠ Marker.filled theme.pastWeeks ∧
      gridMarker theme totalWeeksLived year week ≠ Marker.outlined theme.futureWeeks 1) := by
  simp only [gridMarker, WEEKS_PER_YEAR, Nat.cast_ofNat, decide_eq_true_eq]
  rcases lt_trichotomy ((year : ℤ) * 52 + week) totalWeeksLived with h | h | h
  · have h1 : ¬ totalWeeksLived < (year : ℤ) * 52 + week := by omega
    have h2 : ¬ (year : ℤ) * 52 + week = totalWeeksLived := by omega
    simp [h, h1, h2]
  · have h1 : ¬ totalWeeksLived < (year : ℤ) * 52 + week := by omega
    have h2 : ¬ (year : ℤ) * 52 + week < totalWeeksLived := by omega
    simp [h, h1, h2]
  · have h1 : ¬ (year : ℤ) * 52 + week = totalWeeksLived := by omega
    have h2 : ¬ (year : ℤ) * 52 + week < totalWeeksLived := by omega
    simp [h, h1, h2]

/-- The statement of C7 for the first cell of year 34 under the light theme. -/
theorem gridMarker_state_witness :
    (34 < 80) ∧ (0 < 52) ∧
    (gridMarker THEMES.light 1768 34 0 = Marker.outlined THEMES.light.currentWeek 4 ↔
      ((34 : ℕ) : ℤ) * 52 + ((0 : ℕ) : ℤ) = 1768) :=
  ⟨by decide, by decide, (gridMarker_state THEMES.light 1768 34 0 (by decide) (by decide)).2.1⟩

/-- The quote policy on 1-indexed weeks: the index is 0 when `weekOfYear = 1` or
`currentWeekOfYear = 0`, otherwise the JavaScript remainder
`(weekOfYear - 1) % quotes.length`, which for `weekOfYear ≥ 1` is the
mathematical residue in `[0, quotes.length)`. -/
theorem quoteIndex_policy (weekOfYear : ℤ) (lifePosition : LifePosition) (config : Config)
    (hne : config.quotes ≠ []) :
    ((weekOfYear = 1 ∨ lifePosition.currentWeekOfYear = 0) →
      quoteIndex weekOfYear lifePosition config = 0) ∧
    (¬ (weekOfYear = 1 ∨ lifePosition.currentWeekOfYear = 0) →
      quoteIndex weekOfYear lifePosition config =
        jsRem (weekOfYear - 1) (config.quotes.length : ℤ)) ∧
    (1 ≤ weekOfYear → ¬ (weekOfYear = 1 ∨ lifePosition.currentWeekOfYear = 0) →
      quoteIndex weekOfYear lifePosition config = (weekOfYear - 1) % (config.quotes.length : ℤ)) ∧
    (1 ≤ weekOfYear → 0 ≤ quoteIndex weekOfYear lifePosition config ∧
      quoteIndex weekOfYear lifePosition config < (config.quotes.length : ℤ)) ∧
    selectQuote weekOfYear lifePosition config =
      (jsIndex config.quotes (quoteIndex weekOfYear lifePosition config),
       jsIndex config.attributions (quoteIndex weekOfYear lifePosition config)) := by
  have hlen : 0 < (config.quotes.length : ℤ) := by
    have := List.length_pos.mpr hne
    exact_mod_cast this
  have hrem : 1 ≤ weekOfYear →
      jsRem (weekOfYear - 1) (config.quotes.length : ℤ) =
        (weekOfYear - 1) % (config.quotes.length : ℤ) := by
    intro hW
    unfold jsRem
    exact Int.tmod_eq_emod (by omega) hlen.le
  refine ⟨fun h => by simp [quoteIndex, h], fun h => by simp [quoteIndex, h], ?_, ?_, rfl⟩
  · intro hW h
    simp only [quoteIndex, h, if_false]
    exact hrem hW
  · intro hW
    by_cases h : weekOfYear = 1 ∨ lifePosition.currentWeekOfYear = 0
    · simp only [quoteIndex, h, if_true]
      exact ⟨le_rfl, hlen⟩
    · simp only [quoteIndex, h, if_false]
      rw [hrem hW]
      exact ⟨Int.emod_nonneg _ (ne_of_gt hlen), Int.emod_lt_of_pos _ hlen⟩

/-- The quote policy for a three-quote configuration in calendar week 1. -/
theorem quoteIndex_policy_witness :
    (Config.mk "1990-06-15" "dark" ["a", "b", "c"] ["x", "y", "z"]).quotes ≠ [] ∧
    quoteIndex 1 (LifePosition.mk 1768 34 5 0 1)
      (Config.mk "1990-06-15" "dark" ["a", "b", "c"] ["x", "y", "z"]) = 0 :=
  ⟨by decide,
    (quoteIndex_policy 1 (LifePosition.mk 1768 34 5 0 1)
      (Config.mk "1990-06-15" "dark" ["a", "b", "c"] ["x", "y", "z"]) (by decide)).1
      (Or.inl rfl)⟩

/-- Claim C8 at its failing input, on a machine in UTC with three quotes: at
exactly 2023-01-01T00:00:00.000 `getWeekOfYear` is 0; for the birthdate
1990-11-25 `currentWeekOfYear` is 5, so the guard is not taken and `quoteIndex`
is `(0 - 1) % 3 = -1` with the JavaScript remainder, where the claim's
`(W - 1) mod len` is 2; `quotes[-1]` and `attributions[-1]` are `undefined`.
Just after midnight of 2023-01-08 (week 2) the same code selects the quote and
attribution at index 1. -/
theorem quoteIndex_negative_at_week_zero :
    getWeekOfYear 0 (parseDate 2023 1 1) = 0 ∧
    (calculateLifePosition 0 (parseDate 1990 11 25) (parseDate 2023 1 1)).currentWeekOfYear = 5 ∧
    quoteIndex (getWeekOfYear 0 (parseDate 2023 1 1))
      (calculateLifePosition 0 (parseDate 1990 11 25) (parseDate 2023 1 1))
      (Config.mk "1990-11-25" "dark" ["a", "b", "c"] ["x", "y", "z"]) = -1 ∧
    ((0 : ℤ) - 1) % ((["a", "b", "c"] : List String).length : ℤ) = 2 ∧
    selectQuote (getWeekOfYear 0 (parseDate 2023 1 1))
      (calculateLifePosition 0 (parseDate 1990 11 25) (parseDate 2023 1 1))
      (Config.mk "1990-11-25" "dark" ["a", "b", "c"] ["x", "y", "z"]) = (none, none) ∧
    getWeekOfYear 0 (parseDate 2023 1 8 + 1) = 2 ∧
    selectQuote (getWeekOfYear 0 (parseDate 2023 1 8 + 1))
      (calculateLifePosition 0 (parseDate 1990 11 25) (parseDate 2023 1 8 + 1))
      (Config.mk "1990-11-25" "dark" ["a", "b", "c"] ["x", "y", "z"]) = (some "b", some "y") := by
  decide

/-! ## Time position -/

theorem YearFromDay_spec (d : ℤ) :
    DayFromYear (YearFromDay d) ≤ d ∧ d < DayFromYear (YearFromDay d + 1) := by
  unfold YearFromDay
  simp only
  split_ifs with h1 h2
  · refine ⟨h1, ?_⟩
    unfold DayFromYear at *
    omega
  · exact ⟨h2, by omega⟩
  · refine ⟨?_, ?_⟩
    · unfold DayFromYear at *
      omega
    · have : 1970 + 400 * d / 146097 - 1 + 1 = 1970 + 400 * d / 146097 := by ring
      rw [this]; omega

theorem DayFromYear_mono {y z : ℤ} (h : y ≤ z) : DayFromYear y ≤ DayFromYear z := by
  unfold DayFromYear
  omega

theorem DayFromYear_lt {y z : ℤ} (h : y < z) : DayFromYear y < DayFromYear z := by
  unfold DayFromYear
  omega

theorem YearFromDay_unique {d y : ℤ} (h1 : DayFromYear y ≤ d) (h2 : d < DayFromYear (y + 1)) :
    YearFromDay d = y := by
  obtain ⟨s1, s2⟩ := YearFromDay_spec d
  by_contra hne
  rcases lt_or_gt_of_ne hne with hlt | hgt
  · have := DayFromYear_mono (show YearFromDay d + 1 ≤ y by omega)
    omega
  · have := DayFromYear_mono (show y + 1 ≤ YearFromDay d by omega)
    omega

theorem YearFromDay_mono {d e : ℤ} (h : d ≤ e) : YearFromDay d ≤ YearFromDay e := by
  obtain ⟨s1, _⟩ := YearFromDay_spec d
  obtain ⟨_, t2⟩ := YearFromDay_spec e
  by_contra hlt
  have := DayFromYear_mono (show YearFromDay e + 1 ≤ YearFromDay d by omega)
  omega

theorem InLeapYear_range (y : ℤ) : 0 ≤ InLeapYear y ∧ InLeapYear y ≤ 1 := by
  unfold InLeapYear
  split_ifs <;> omega

theorem InLeapYear_succ (y : ℤ) : InLeapYear y + InLeapYear (y + 1) ≤ 1 := by
  unfold InLeapYear DaysInYear
  split_ifs <;> omega

theorem DayFromYear_succ (y : ℤ) : DayFromYear (y + 1) = DayFromYear y + 365 + InLeapYear y := by
  unfold InLeapYear DaysInYear DayFromYear
  split_ifs <;> omega

theorem DayWithinYear_range (t : ℤ) :
    0 ≤ DayWithinYear t ∧ DayWithinYear t < 365 + InLeapYear (YearFromTime t) := by
  obtain ⟨s1, s2⟩ := YearFromDay_spec (Day t)
  rw [DayFromYear_succ] at s2
  unfold DayWithinYear YearFromTime
  omega

theorem MonthStart_values (l : ℤ) :
    MonthStart 0 l = 0 ∧ MonthStart 1 l = 31 ∧ MonthStart 2 l = 59 + l ∧
    MonthStart 3 l = 90 + l ∧ MonthStart 4 l = 120 + l ∧ MonthStart 5 l = 151 + l ∧
    MonthStart 6 l = 181 + l ∧ MonthStart 7 l = 212 + l ∧ MonthStart 8 l = 243 + l ∧
    MonthStart 9 l = 273 + l ∧ MonthStart 10 l = 304 + l ∧ MonthStart 11 l = 334 + l :=
  ⟨rfl, rfl, rfl, rfl, rfl, rfl, rfl, rfl, rfl, rfl, rfl, rfl⟩

/-- The month table of `MonthFromTime`, read off as twelve cases: `d` is the day
within the year and `l` the leap-year flag. -/
theorem MonthFromTime_cases (t m d l : ℤ) (hd : DayWithinYear t = d)
    (hl : InLeapYear (YearFromTime t) = l) (hm : MonthFromTime t = m) :
    (m = 0 ∧ d < 31) ∨
    (m = 1 ∧ 31 ≤ d ∧ d < 59 + l) ∨
    (m = 2 ∧ 59 + l ≤ d ∧ d < 90 + l) ∨
    (m = 3 ∧ 90 + l ≤ d ∧ d < 120 + l) ∨
    (m = 4 ∧ 120 + l ≤ d ∧ d < 151 + l) ∨
    (m = 5 ∧ 151 + l ≤ d ∧ d < 181 + l) ∨
    (m = 6 ∧ 181 + l ≤ d ∧ d < 212 + l) ∨
    (m = 7 ∧ 212 + l ≤ d ∧ d < 243 + l) ∨
    (m = 8 ∧ 243 + l ≤ d ∧ d < 273 + l) ∨
    (m = 9 ∧ 273 + l ≤ d ∧ d < 304 + l) ∨
    (m = 10 ∧ 304 + l ≤ d ∧ d < 334 + l) ∨
    (m = 11 ∧ 334 + l ≤ d) := by
  unfold MonthFromTime at hm
  rw [hd, hl] at hm
  dsimp only at hm
  by_cases h0 : d < 31
  · rw [if_pos h0] at hm
    exact Or.inl ⟨hm.symm, h0⟩
  rw [if_neg h0] at hm
  by_cases h1 : d < 59 + l
  · rw [if_pos h1] at hm
    exact Or.inr (Or.inl ⟨hm.symm, by omega, h1⟩)
  rw [if_neg h1] at hm
  by_cases h2 : d < 90 + l
  · rw [if_pos h2] at hm
    exact Or.inr (Or.inr (Or.inl ⟨hm.symm, by omega, h2⟩))
  rw [if_neg h2] at hm
  by_cases h3 : d < 120 + l
  · rw [if_pos h3] at hm
    exact Or.inr (Or.inr (Or.inr (Or.inl ⟨hm.symm, by omega, h3⟩)))
  rw [if_neg h3] at hm
  by_cases h4 : d < 151 + l
  · rw [if_pos h4] at hm
    exact Or.inr (Or.inr (Or.inr (Or.inr (Or.inl ⟨hm.symm, by omega, h4⟩))))
  rw [if_neg h4] at hm
  by_cases h5 : d < 181 + l
  · rw [if_pos h5] at hm
    exact Or.inr (Or.inr (Or.inr (Or.inr (Or.inr (Or.inl ⟨hm.symm, by omega, h5⟩)))))
  rw [if_neg h5] at hm
  by_cases h6 : d < 212 + l
  · rw [if_pos h6] at hm
    exact Or.inr (Or.inr (Or.inr (Or.inr (Or.inr (Or.inr (Or.inl ⟨hm.symm, by omega, h6⟩))))))
  rw [if_neg h6] at hm
  by_cases h7 : d < 243 + l
  · rw [if_pos h7] at hm
    exact Or.inr (Or.inr (Or.inr (Or.inr (Or.inr (Or.inr (Or.inr (Or.inl ⟨hm.symm, by omega, h7⟩)))))))
  rw [if_neg h7] at hm
  by_cases h8 : d < 273 + l
  · rw [if_pos h8] at hm
    exact Or.inr (Or.inr (Or.inr (Or.inr (Or.inr (Or.inr (Or.inr (Or.inr (Or.inl ⟨hm.symm, by omega, h8⟩))))))))
  rw [if_neg h8] at hm
  by_cases h9 : d < 304 + l
  · rw [if_pos h9] at hm
    exact Or.inr (Or.inr (Or.inr (Or.inr (Or.inr (Or.inr (Or.inr (Or.inr (Or.inr (Or.inl ⟨hm.symm, by omega, h9⟩)))))))))
  rw [if_neg h9] at hm
  by_cases h10 : d < 334 + l
  · rw [if_pos h10] at hm
    exact Or.inr (Or.inr (Or.inr (Or.inr (Or.inr (Or.inr (Or.inr (Or.inr (Or.inr (Or.inr (Or.inl ⟨hm.symm, by omega, h10⟩))))))))))
  rw [if_neg h10] at hm
  exact Or.inr (Or.inr (Or.inr (Or.inr (Or.inr (Or.inr (Or.inr (Or.inr (Or.inr (Or.inr (Or.inr (⟨hm.symm, by omega⟩)))))))))))

theorem MonthFromTime_range (t : ℤ) : 0 ≤ MonthFromTime t ∧ MonthFromTime t ≤ 11 := by
  rcases MonthFromTime_cases t _ _ _ rfl rfl rfl with h | h | h | h | h | h | h | h | h | h | h | h <;>
    omega

theorem DateFromTime_range (t : ℤ) : 1 ≤ DateFromTime t ∧ DateFromTime t ≤ 31 := by
  obtain ⟨d1, d2⟩ := DayWithinYear_range t
  obtain ⟨l1, l2⟩ := InLeapYear_range (YearFromTime t)
  unfold DateFromTime
  rcases MonthFromTime_cases t _ _ _ rfl rfl rfl with h | h | h | h | h | h | h | h | h | h | h | h
  · rw [h.1, (MonthStart_values _).1]; omega
  · rw [h.1, (MonthStart_values _).2.1]; omega
  · rw [h.1, (MonthStart_values _).2.2.1]; omega
  · rw [h.1, (MonthStart_values _).2.2.2.1]; omega
  · rw [h.1, (MonthStart_values _).2.2.2.2.1]; omega
  · rw [h.1, (MonthStart_values _).2.2.2.2.2.1]; omega
  · rw [h.1, (MonthStart_values _).2.2.2.2.2.2.1]; omega
  · rw [h.1, (MonthStart_values _).2.2.2.2.2.2.2.1]; omega
  · rw [h.1, (MonthStart_values _).2.2.2.2.2.2.2.2.1]; omega
  · rw [h.1, (MonthStart_values _).2.2.2.2.2.2.2.2.2.1]; omega
  · rw [h.1, (MonthStart_values _).2.2.2.2.2.2.2.2.2.2.1]; omega
  · rw [h.1, (MonthStart_values _).2.2.2.2.2.2.2.2.2.2.2]; omega

theorem MakeDay_eq {m : ℤ} (y d : ℤ) (h0 : 0 ≤ m) (h11 : m ≤ 11) :
    MakeDay y m d = DayFromYear y + MonthStart m (InLeapYear y) + d - 1 := by
  unfold MakeDay
  have e1 : m / 12 = 0 := by omega
  have e2 : m % 12 = m := by omega
  simp only [e1, e2, add_zero]

theorem MakeDay_roundtrip (t : ℤ) :
    MakeDay (YearFromTime t) (MonthFromTime t) (DateFromTime t) = Day t := by
  obtain ⟨m0, m11⟩ := MonthFromTime_range t
  rw [MakeDay_eq _ _ m0 m11]
  unfold DateFromTime DayWithinYear
  ring

theorem MonthStart_bounds {m l : ℤ} (h0 : 0 ≤ m) (h11 : m ≤ 11) (l0 : 0 ≤ l) (l1 : l ≤ 1) :
    0 ≤ MonthStart m l ∧ MonthStart m l ≤ 334 + l := by
  interval_cases m <;> simp only [MonthStart] <;> norm_num <;> omega

theorem MonthStart_leap {m : ℤ} (l k : ℤ) (h0 : 0 ≤ m) (h11 : m ≤ 11) :
    MonthStart m l - MonthStart m k = 0 ∨ MonthStart m l - MonthStart m k = l - k := by
  interval_cases m <;> simp only [MonthStart] <;> norm_num

/-- The anniversary falls inside its calendar year. -/
theorem MakeDay_within_year {m d : ℤ} (y : ℤ) (h0 : 0 ≤ m) (h11 : m ≤ 11) (d1 : 1 ≤ d)
    (d31 : d ≤ 31) :
    DayFromYear y ≤ MakeDay y m d ∧ MakeDay y m d < DayFromYear (y + 1) := by
  obtain ⟨l0, l1⟩ := InLeapYear_range y
  obtain ⟨b0, b1⟩ := MonthStart_bounds h0 h11 l0 l1
  rw [MakeDay_eq _ _ h0 h11, DayFromYear_succ]
  omega

/-- Consecutive anniversaries are 365 or 366 days apart. -/
theorem MakeDay_succ_year {m : ℤ} (y d : ℤ) (h0 : 0 ≤ m) (h11 : m ≤ 11) :
    MakeDay y m d + 365 ≤ MakeDay (y + 1) m d ∧ MakeDay (y + 1) m d ≤ MakeDay y m d + 366 := by
  obtain ⟨l0, l1⟩ := InLeapYear_range y
  obtain ⟨k0, k1⟩ := InLeapYear_range (y + 1)
  have hs := InLeapYear_succ y
  have hm := MonthStart_leap (InLeapYear (y + 1)) (InLeapYear y) h0 h11
  rw [MakeDay_eq _ _ h0 h11, MakeDay_eq _ _ h0 h11, DayFromYear_succ]
  omega

theorem MakeDay_lt_of_year_lt {m d : ℤ} {y z : ℤ} (h0 : 0 ≤ m) (h11 : m ≤ 11) (d1 : 1 ≤ d)
    (d31 : d ≤ 31) (h : y < z) : MakeDay y m d < MakeDay z m d := by
  have a := (MakeDay_within_year y h0 h11 d1 d31).2
  have b := (MakeDay_within_year z h0 h11 d1 d31).1
  have c := DayFromYear_mono (show y + 1 ≤ z by omega)
  omega

theorem newDate_eq (tz y m d : ℤ) (hy : 100 ≤ y) :
    newDate tz y m d = MakeDay y m d * msPerDay - tz := by
  have : ¬ (0 ≤ y ∧ y ≤ 99) := by omega
  simp [newDate, this, UTC, MakeDate]

/-- Local midnight of a day number is not after `now` exactly when the local day
of `now` has reached that day. -/
theorem newDate_le_iff (tz a now : ℤ) :
    a * msPerDay - tz ≤ now ↔ a ≤ Day (LocalTime tz now) := by
  unfold Day LocalTime msPerDay
  omega

theorem days_since (tz a now : ℤ) :
    floorDiv (now - (a * msPerDay - tz)) MILLISECONDS_PER_DAY = Day (LocalTime tz now) - a := by
  unfold floorDiv Day LocalTime msPerDay MILLISECONDS_PER_DAY
  omega

theorem getMonth_range (tz t : ℤ) : 0 ≤ getMonth tz t ∧ getMonth tz t ≤ 11 :=
  MonthFromTime_range (LocalTime tz t)

theorem getDate_range (tz t : ℤ) : 1 ≤ getDate tz t ∧ getDate tz t ≤ 31 :=
  DateFromTime_range (LocalTime tz t)

theorem getFullYear_spec (tz t : ℤ) :
    DayFromYear (getFullYear tz t) ≤ Day (LocalTime tz t) ∧
    Day (LocalTime tz t) < DayFromYear (getFullYear tz t + 1) :=
  YearFromDay_spec (Day (LocalTime tz t))

/-- The position in terms of the cycle year `c`: the year whose anniversary
opens the cycle that contains `now`. -/
theorem calculateLifePosition_cycle (tz birth now : ℤ)
    (hY : 100 ≤ getFullYear tz now)
    (hP : Day (LocalTime tz now) <
        MakeDay (getFullYear tz now) (getMonth tz birth) (getDate tz birth) →
      101 ≤ getFullYear tz now) :
    ∃ c : ℤ,
      MakeDay c (getMonth tz birth) (getDate tz birth) ≤ Day (LocalTime tz now) ∧
      Day (LocalTime tz now) < MakeDay (c + 1) (getMonth tz birth) (getDate tz birth) ∧
      (calculateLifePosition tz birth now).currentYearOfLife = c - getFullYear tz birth ∧
      (calculateLifePosition tz birth now).currentWeekOfYear =
        (Day (LocalTime tz now) - MakeDay c (getMonth tz birth) (getDate tz birth)) / 7 ∧
      (calculateLifePosition tz birth now).totalWeeksLived =
        (c - getFullYear tz birth) * 52 +
          (Day (LocalTime tz now) - MakeDay c (getMonth tz birth) (getDate tz birth)) / 7 := by
  obtain ⟨m0, m11⟩ := getMonth_range tz birth
  obtain ⟨d1, d31⟩ := getDate_range tz birth
  obtain ⟨y1, y2⟩ := getFullYear_spec tz now
  have hcur := newDate_eq tz (getFullYear tz now) (getMonth tz birth) (getDate tz birth) hY
  have wY := MakeDay_within_year (getFullYear tz now) m0 m11 d1 d31
  have wP := MakeDay_within_year (getFullYear tz now - 1) m0 m11 d1 d31
  have wN := MakeDay_within_year (getFullYear tz now + 1) m0 m11 d1 d31
  rw [show getFullYear tz now - 1 + 1 = getFullYear tz now by ring] at wP
  by_cases hge : MakeDay (getFullYear tz now) (getMonth tz birth) (getDate tz birth)
      ≤ Day (LocalTime tz now)
  · have hc : now ≥ MakeDay (getFullYear tz now) (getMonth tz birth) (getDate tz birth) *
        msPerDay - tz := by
      rw [ge_iff_le, newDate_le_iff]; exact hge
    have hn : ¬ now < MakeDay (getFullYear tz now) (getMonth tz birth) (getDate tz birth) *
        msPerDay - tz := not_lt.mpr hc
    refine ⟨getFullYear tz now, hge, by omega, ?_, ?_, ?_⟩
    · simp only [calculateLifePosition, hcur, if_neg hn, sub_zero]
    · simp only [calculateLifePosition, hcur, if_pos hc, days_since]
      rfl
    · simp only [calculateLifePosition, hcur, if_pos hc, if_neg hn, days_since, sub_zero]
      rfl
  · have hlt : now < MakeDay (getFullYear tz now) (getMonth tz birth) (getDate tz birth) *
        msPerDay - tz := by
      rw [← not_le, newDate_le_iff]; exact hge
    have hn : ¬ now ≥ MakeDay (getFullYear tz now) (getMonth tz birth) (getDate tz birth) *
        msPerDay - tz := not_le.mpr hlt
    have h101 := hP (not_le.mp hge)
    have hprev := newDate_eq tz (getFullYear tz now - 1) (getMonth tz birth) (getDate tz birth)
      (by omega)
    refine ⟨getFullYear tz now - 1, by omega, ?_, ?_, ?_, ?_⟩
    · rw [show getFullYear tz now - 1 + 1 = getFullYear tz now by ring]; omega
    · simp only [calculateLifePosition, hcur, if_pos hlt]; ring
    · simp only [calculateLifePosition, hcur, if_neg hn, hprev, days_since]
      rfl
    · simp only [calculateLifePosition, hcur, if_pos hlt, if_neg hn, hprev, days_since]
      have e : getFullYear tz now - getFullYear tz birth - 1 =
          getFullYear tz now - 1 - getFullYear tz birth := by ring
      rw [e]
      rfl

theorem Day_LocalTime_mono (tz : ℤ) {s t : ℤ} (h : s ≤ t) :
    Day (LocalTime tz s) ≤ Day (LocalTime tz t) := by
  unfold Day LocalTime msPerDay
  omega

theorem getFullYear_mono (tz : ℤ) {s t : ℤ} (h : s ≤ t) : getFullYear tz s ≤ getFullYear tz t :=
  YearFromDay_mono (Day_LocalTime_mono tz h)

/-- The anniversary in the birth year itself is the (local) day of birth. -/
theorem MakeDay_birth (tz birth : ℤ) :
    MakeDay (getFullYear tz birth) (getMonth tz birth) (getDate tz birth) =
      Day (LocalTime tz birth) :=
  MakeDay_roundtrip (LocalTime tz birth)

/-- No year handed to the `Date` constructor on the path taken lies in the range
`0..99` when the birth year is at least 100, or when `now` lies in year 101 or
later. -/
theorem years_outside_legacy_range (tz birth now : ℤ) (h : birth ≤ now)
    (hB : 100 ≤ getFullYear tz birth ∨ 101 ≤ getFullYear tz now) :
    100 ≤ getFullYear tz now ∧
    (Day (LocalTime tz now) <
        MakeDay (getFullYear tz now) (getMonth tz birth) (getDate tz birth) →
      101 ≤ getFullYear tz now) := by
  rcases hB with hB | hN
  · have hy := getFullYear_mono tz h
    refine ⟨by omega, fun hlt => ?_⟩
    by_contra hcon
    have heq : getFullYear tz now = getFullYear tz birth := by omega
    rw [heq, MakeDay_birth] at hlt
    have := Day_LocalTime_mono tz h
    omega
  · exact ⟨by omega, fun _ => hN⟩

/-- Claim C9 at its failing inputs, for the birthdate 1990-06-15 on a machine in
UTC: on 2023-06-14 (day 364 of a 365-day cycle) and on 2024-06-13 and 2024-06-14
(days 364 and 365 of a 366-day cycle) `currentWeekOfYear` is 52, outside `[0, 51]`,
and `totalWeeksLived` already equals the value of the coming anniversary. -/
theorem currentWeekOfYear_reaches_52 :
    parseDate 1990 6 15 ≤ parseDate 2023 6 14 ∧
    (calculateLifePosition 0 (parseDate 1990 6 15) (parseDate 2023 6 14)).currentWeekOfYear = 52 ∧
    (calculateLifePosition 0 (parseDate 1990 6 15) (parseDate 2024 6 13)).currentWeekOfYear = 52 ∧
    (calculateLifePosition 0 (parseDate 1990 6 15) (parseDate 2024 6 14)).currentWeekOfYear = 52 ∧
    (calculateLifePosition 0 (parseDate 1990 6 15) (parseDate 2024 6 14)).currentYearOfLife = 33 ∧
    (calculateLifePosition 0 (parseDate 1990 6 15) (parseDate 2024 6 14)).totalWeeksLived =
      34 * 52 ∧
    (calculateLifePosition 0 (parseDate 1990 6 15) (parseDate 2024 6 15)).totalWeeksLived =
      34 * 52 := by
  decide

/-- Claim C10 at its failing input, for the birthdate 0050-06-12 on a machine in
UTC: `totalWeeksLived` drops from -98588 at 0060-12-31 to -98589 one day later,
at 0061-01-01. The years 59 and 60 handed to the `Date` constructor are read as
1959 and 1960, so the birthday taken as the previous one lies in the future,
the weeks since it are negative (-99056), and the cycle start jumps by 366 days
over one day. -/
theorem totalWeeksLived_drops_in_legacy_year :
    parseDate 50 6 12 ≤ parseDate 60 12 31 ∧
    parseDate 60 12 31 ≤ parseDate 61 1 1 ∧
    newDate 0 59 5 12 = parseDate 1959 6 12 ∧
    newDate 0 60 5 12 = parseDate 1960 6 12 ∧
    (calculateLifePosition 0 (parseDate 50 6 12) (parseDate 60 12 31)).currentWeekOfYear
      = -99056 ∧
    (calculateLifePosition 0 (parseDate 50 6 12) (parseDate 60 12 31)).totalWeeksLived
      = -98588 ∧
    (calculateLifePosition 0 (parseDate 50 6 12) (parseDate 61 1 1)).totalWeeksLived
      = -98589 ∧
    (calculateLifePosition 0 (parseDate 50 6 12) (parseDate 61 1 1)).totalWeeksLived <
      (calculateLifePosition 0 (parseDate 50 6 12) (parseDate 60 12 31)).totalWeeksLived := by
  decide

/-- Where no year in `0..99` reaches the `Date` constructor (the local year of the
birth is at least 100, or the one of `N1` at least 101) and for one fixed local
offset, `totalWeeksLived` does not decrease from `N1` to `N2` when
`birth ≤ N1 ≤ N2`, also across a birthday anniversary. -/
theorem totalWeeksLived_mono (tz birth N1 N2 : ℤ) (h1 : birth ≤ N1) (h12 : N1 ≤ N2)
    (hB : 100 ≤ getFullYear tz birth ∨ 101 ≤ getFullYear tz N1) :
    (calculateLifePosition tz birth N1).totalWeeksLived ≤
      (calculateLifePosition tz birth N2).totalWeeksLived := by
  have hB2 : 100 ≤ getFullYear tz birth ∨ 101 ≤ getFullYear tz N2 := by
    have := getFullYear_mono tz h12
    omega
  obtain ⟨hY1, hP1⟩ := years_outside_legacy_range tz birth N1 h1 hB
  obtain ⟨hY2, hP2⟩ := years_outside_legacy_range tz birth N2 (le_trans h1 h12) hB2
  obtain ⟨c1, a1, b1, -, -, t1⟩ := calculateLifePosition_cycle tz birth N1 hY1 hP1
  obtain ⟨c2, a2, b2, -, -, t2⟩ := calculateLifePosition_cycle tz birth N2 hY2 hP2
  obtain ⟨m0, m11⟩ := getMonth_range tz birth
  obtain ⟨d1, d31⟩ := getDate_range tz birth
  have hd := Day_LocalTime_mono tz h12
  have hs := MakeDay_succ_year c1 (getDate tz birth) m0 m11
  rw [t1, t2]
  have hc : c1 ≤ c2 := by
    by_contra hlt
    have hlt2 : c2 + 1 ≤ c1 := by omega
    rcases eq_or_lt_of_le hlt2 with he | hl
    · rw [he] at b2; omega
    · have := MakeDay_lt_of_year_lt m0 m11 d1 d31 hl
      omega
  rcases eq_or_lt_of_le hc with he | hl
  · subst he; omega
  · omega

/-- Monotonicity across the anniversary of 2024-06-15 for a birth on 1990-06-15. -/
theorem totalWeeksLived_mono_witness :
    parseDate 1990 6 15 ≤ parseDate 2024 6 14 ∧
    parseDate 2024 6 14 ≤ parseDate 2024 6 15 ∧
    (100 ≤ getFullYear 0 (parseDate 1990 6 15) ∨ 101 ≤ getFullYear 0 (parseDate 2024 6 14)) ∧
    (calculateLifePosition 0 (parseDate 1990 6 15) (parseDate 2024 6 14)).totalWeeksLived ≤
      (calculateLifePosition 0 (parseDate 1990 6 15) (parseDate 2024 6 15)).totalWeeksLived :=
  ⟨by decide, by decide, by decide,
    totalWeeksLived_mono 0 (parseDate 1990 6 15) (parseDate 2024 6 14) (parseDate 2024 6 15)
      (by decide) (by decide) (by decide)⟩

/-! ## Birthday anniversaries -/

theorem DaysInMonth_bounds (m l : ℤ) (l0 : 0 ≤ l) (l1 : l ≤ 1) :
    28 ≤ DaysInMonth m l ∧ DaysInMonth m l ≤ 31 := by
  unfold DaysInMonth
  split_ifs <;> omega

/-- Changing the leap flag changes the length of a month by at most one day. -/
theorem DaysInMonth_leap (m l k : ℤ) (l0 : 0 ≤ l) (l1 : l ≤ 1) (k0 : 0 ≤ k) (k1 : k ≤ 1) :
    DaysInMonth m l ≤ DaysInMonth m k + 1 := by
  unfold DaysInMonth
  split_ifs <;> omega

theorem MonthStart_succ {m : ℤ} (l : ℤ) (h0 : 0 ≤ m) (h10 : m ≤ 10) :
    MonthStart (m + 1) l = MonthStart m l + DaysInMonth m l := by
  interval_cases m <;> simp only [MonthStart, DaysInMonth] <;> norm_num <;> omega

/-- A day within the year lies in one month only. -/
theorem month_unique {m m' d l : ℤ} (h0 : 0 ≤ m) (h11 : m ≤ 11) (l0 : 0 ≤ l) (l1 : l ≤ 1)
    (hlo : MonthStart m l ≤ d) (hhi : d < MonthStart m l + DaysInMonth m l)
    (hc : (m' = 0 ∧ d < 31) ∨
      (m' = 1 ∧ 31 ≤ d ∧ d < 59 + l) ∨
      (m' = 2 ∧ 59 + l ≤ d ∧ d < 90 + l) ∨
      (m' = 3 ∧ 90 + l ≤ d ∧ d < 120 + l) ∨
      (m' = 4 ∧ 120 + l ≤ d ∧ d < 151 + l) ∨
      (m' = 5 ∧ 151 + l ≤ d ∧ d < 181 + l) ∨
      (m' = 6 ∧ 181 + l ≤ d ∧ d < 212 + l) ∨
      (m' = 7 ∧ 212 + l ≤ d ∧ d < 243 + l) ∨
      (m' = 8 ∧ 243 + l ≤ d ∧ d < 273 + l) ∨
      (m' = 9 ∧ 273 + l ≤ d ∧ d < 304 + l) ∨
      (m' = 10 ∧ 304 + l ≤ d ∧ d < 334 + l) ∨
      (m' = 11 ∧ 334 + l ≤ d)) :
    m' = m := by
  have hs : (m = 0 ∧ MonthStart m l = 0 ∧ DaysInMonth m l = 31) ∨
      (m = 1 ∧ MonthStart m l = 31 ∧ DaysInMonth m l = 28 + l) ∨
      (m = 2 ∧ MonthStart m l = 59 + l ∧ DaysInMonth m l = 31) ∨
      (m = 3 ∧ MonthStart m l = 90 + l ∧ DaysInMonth m l = 30) ∨
      (m = 4 ∧ MonthStart m l = 120 + l ∧ DaysInMonth m l = 31) ∨
      (m = 5 ∧ MonthStart m l = 151 + l ∧ DaysInMonth m l = 30) ∨
      (m = 6 ∧ MonthStart m l = 181 + l ∧ DaysInMonth m l = 31) ∨
      (m = 7 ∧ MonthStart m l = 212 + l ∧ DaysInMonth m l = 31) ∨
      (m = 8 ∧ MonthStart m l = 243 + l ∧ DaysInMonth m l = 30) ∨
      (m = 9 ∧ MonthStart m l = 273 + l ∧ DaysInMonth m l = 31) ∨
      (m = 10 ∧ MonthStart m l = 304 + l ∧ DaysInMonth m l = 30) ∨
      (m = 11 ∧ MonthStart m l = 334 + l ∧ DaysInMonth m l = 31) := by
    interval_cases m <;> simp only [MonthStart, DaysInMonth] <;> norm_num
  rcases hs with hs | hs | hs | hs | hs | hs | hs | hs | hs | hs | hs | hs <;>
    rcases hc with h | h | h | h | h | h | h | h | h | h | h | h <;> omega

/-- The calendar fields of a day that is given as a calendar date. -/
theorem fields_of_MakeDay {y m d : ℤ} (t : ℤ) (h0 : 0 ≤ m) (h11 : m ≤ 11) (d1 : 1 ≤ d)
    (dL : d ≤ DaysInMonth m (InLeapYear y)) (ht : Day t = MakeDay y m d) :
    YearFromTime t = y ∧ MonthFromTime t = m ∧ DateFromTime t = d := by
  obtain ⟨l0, l1⟩ := InLeapYear_range y
  obtain ⟨_, b31⟩ := DaysInMonth_bounds m (InLeapYear y) l0 l1
  have hw := MakeDay_within_year y h0 h11 d1 (by omega : d ≤ 31)
  have hy : YearFromTime t = y := by
    unfold YearFromTime
    rw [ht]
    exact YearFromDay_unique hw.1 hw.2
  have hdwy : DayWithinYear t = MonthStart m (InLeapYear y) + d - 1 := by
    unfold DayWithinYear
    rw [hy, ht, MakeDay_eq _ _ h0 h11]
    ring
  have hc := MonthFromTime_cases t (MonthFromTime t) (DayWithinYear t) (InLeapYear y) rfl
    (by rw [hy]) rfl
  have hm : MonthFromTime t = m :=
    month_unique h0 h11 l0 l1 (by omega) (by omega) hc
  refine ⟨hy, hm, ?_⟩
  unfold DateFromTime
  rw [hm, hy, hdwy]
  ring

/-- The cycle year is determined by the day: anniversaries increase with the year. -/
theorem cycle_year_unique {m d c c0 dn : ℤ} (h0 : 0 ≤ m) (h11 : m ≤ 11) (d1 : 1 ≤ d)
    (d31 : d ≤ 31) (h1 : MakeDay c m d ≤ dn) (h2 : dn < MakeDay (c + 1) m d)
    (h3 : MakeDay c0 m d ≤ dn) (h4 : dn < MakeDay (c0 + 1) m d) : c = c0 := by
  by_contra hne
  rcases lt_or_gt_of_ne hne with hlt | hgt
  · rcases eq_or_lt_of_le (show c + 1 ≤ c0 by omega) with he | hl
    · rw [he] at h2; omega
    · have := MakeDay_lt_of_year_lt h0 h11 d1 d31 hl
      omega
  · rcases eq_or_lt_of_le (show c0 + 1 ≤ c by omega) with he | hl
    · rw [he] at h4; omega
    · have := MakeDay_lt_of_year_lt h0 h11 d1 d31 hl
      omega

/-- When the anniversary of year `c0` is at most six days before the local day
of `now`, the position is week 0 of year of life `c0 - birth year`. -/
theorem position_in_first_week (tz birth now c0 : ℤ)
    (hY : 100 ≤ getFullYear tz now)
    (hP : Day (LocalTime tz now) <
        MakeDay (getFullYear tz now) (getMonth tz birth) (getDate tz birth) →
      101 ≤ getFullYear tz now)
    (h3 : MakeDay c0 (getMonth tz birth) (getDate tz birth) ≤ Day (LocalTime tz now))
    (h4 : Day (LocalTime tz now) ≤ MakeDay c0 (getMonth tz birth) (getDate tz birth) + 6) :
    (calculateLifePosition tz birth now).currentYearOfLife = c0 - getFullYear tz birth ∧
    (calculateLifePosition tz birth now).currentWeekOfYear = 0 ∧
    (calculateLifePosition tz birth now).totalWeeksLived = 52 * (c0 - getFullYear tz birth) := by
  obtain ⟨m0, m11⟩ := getMonth_range tz birth
  obtain ⟨d1, d31⟩ := getDate_range tz birth
  obtain ⟨c, a1, a2, hy, hw, ht⟩ := calculateLifePosition_cycle tz birth now hY hP
  have hs := MakeDay_succ_year c0 (getDate tz birth) m0 m11
  have hc : c = c0 := cycle_year_unique m0 m11 d1 d31 a1 a2 h3 (by omega)
  subst hc
  refine ⟨hy, ?_, ?_⟩
  · rw [hw]; omega
  · rw [ht]; omega

theorem Day_parseDate_local (tz Y M D : ℤ) (h1 : -msPerDay < tz) (h2 : tz < msPerDay) :
    Day (LocalTime tz (parseDate Y M D)) =
      MakeDay Y (M - 1) D + (if 0 ≤ tz then 0 else -1) := by
  unfold parseDate MakeDate Day LocalTime
  unfold msPerDay at *
  generalize MakeDay Y (M - 1) D = b
  split_ifs <;> omega

/-- Claim C11 at its failing input, for the birthdate 0050-06-15 on a machine in
UTC: on the tenth anniversary 0060-06-15 (year 50 + 10, same month and day)
`calculateLifePosition` returns `currentYearOfLife = 9`,
`currentWeekOfYear = -99085` and `totalWeeksLived = -98617`, where the claim
says 10, 0 and 520, because `new Date(60, 5, 15)` is 1960-06-15. For the
birthdate 1990-06-15 on 2024-06-15 it returns 34, 0 and 1768, as the claim says. -/
theorem anniversary_in_legacy_year :
    getFullYear 0 (parseDate 60 6 15) = getFullYear 0 (parseDate 50 6 15) + 10 ∧
    getMonth 0 (parseDate 60 6 15) = getMonth 0 (parseDate 50 6 15) ∧
    getDate 0 (parseDate 60 6 15) = getDate 0 (parseDate 50 6 15) ∧
    newDate 0 60 5 15 = parseDate 1960 6 15 ∧
    (calculateLifePosition 0 (parseDate 50 6 15) (parseDate 60 6 15)).currentYearOfLife = 9 ∧
    (calculateLifePosition 0 (parseDate 50 6 15) (parseDate 60 6 15)).currentWeekOfYear
      = -99085 ∧
    (calculateLifePosition 0 (parseDate 50 6 15) (parseDate 60 6 15)).totalWeeksLived
      = -98617 ∧
    (calculateLifePosition 0 (parseDate 1990 6 15) (parseDate 2024 6 15)).currentYearOfLife
      = 34 ∧
    (calculateLifePosition 0 (parseDate 1990 6 15) (parseDate 2024 6 15)).currentWeekOfYear
      = 0 ∧
    (calculateLifePosition 0 (parseDate 1990 6 15) (parseDate 2024 6 15)).totalWeeksLived
      = 52 * 34 := by
  decide

/-- A sufficient condition for the anniversary values: for a birthdate `Y-M-D` (a
calendar date, read as midnight UTC) whose local calendar year is at least 100,
every `k ≥ 0` and every instant `now` whose local date is the same month and day
`k` years later, `calculateLifePosition` returns `currentYearOfLife = k`,
`currentWeekOfYear = 0` and `totalWeeksLived = 52 * k`; the local offset `tz` is
one fixed offset of less than a day. -/
theorem anniversary_position (tz Y M D k now : ℤ)
    (htz1 : -msPerDay < tz) (htz2 : tz < msPerDay)
    (hM1 : 1 ≤ M) (hM12 : M ≤ 12) (hD1 : 1 ≤ D)
    (hD : D ≤ DaysInMonth (M - 1) (InLeapYear Y)) (hk : 0 ≤ k)
    (hyear : 100 ≤ getFullYear tz (parseDate Y M D))
    (hnY : getFullYear tz now = Y + k) (hnM : getMonth tz now = M - 1)
    (hnD : getDate tz now = D) :
    ((calculateLifePosition tz (parseDate Y M D) now).currentYearOfLife = k ∧
     (calculateLifePosition tz (parseDate Y M D) now).currentWeekOfYear = 0 ∧
     (calculateLifePosition tz (parseDate Y M D) now).totalWeeksLived = 52 * k) ∧
    (calculateLifePosition 0 (parseDate 1990 6 15) (parseDate 2024 6 15)).currentYearOfLife
      = 34 ∧
    (calculateLifePosition 0 (parseDate 1990 6 15) (parseDate 2024 6 15)).currentWeekOfYear
      = 0 := by
  refine ⟨?_, by decide, by decide⟩
  have hm0 : 0 ≤ M - 1 := by omega
  have hm11 : M - 1 ≤ 11 := by omega
  obtain ⟨l0, l1⟩ := InLeapYear_range Y
  obtain ⟨k0, k1⟩ := InLeapYear_range (Y + k)
  -- the local day of `now` is the anniversary day of year `Y + k`
  have hdn : Day (LocalTime tz now) = MakeDay (Y + k) (M - 1) D := by
    have r := MakeDay_roundtrip (LocalTime tz now)
    change MakeDay (getFullYear tz now) (getMonth tz now) (getDate tz now) = _ at r
    rw [hnY, hnM, hnD] at r
    exact r.symm
  have hdb := Day_parseDate_local tz Y M D htz1 htz2
  by_cases htz : 0 ≤ tz
  · -- east of Greenwich, or UTC: the local date of birth is the date written
    rw [if_pos htz, add_zero] at hdb
    obtain ⟨fy, fm, fd⟩ := fields_of_MakeDay (LocalTime tz (parseDate Y M D)) hm0 hm11 hD1 hD hdb
    change getFullYear tz (parseDate Y M D) = Y at fy
    change getMonth tz (parseDate Y M D) = M - 1 at fm
    change getDate tz (parseDate Y M D) = D at fd
    have h := position_in_first_week tz (parseDate Y M D) now (Y + k)
      (by rw [hnY]; omega) (by rw [hnY, fm, fd, hdn]; intro hlt; omega)
      (by rw [fm, fd, hdn]) (by rw [fm, fd, hdn]; omega)
    rw [fy] at h
    refine ⟨?_, h.2.1, ?_⟩
    · rw [h.1]; ring
    · rw [h.2.2]; ring
  · -- west of Greenwich: the local date of birth is the day before
    rw [if_neg htz] at hdb
    by_cases hD2 : 2 ≤ D
    · have hdb' : Day (LocalTime tz (parseDate Y M D)) = MakeDay Y (M - 1) (D - 1) := by
        rw [hdb]; unfold MakeDay; ring
      obtain ⟨fy, fm, fd⟩ := fields_of_MakeDay (LocalTime tz (parseDate Y M D)) hm0 hm11
        (by omega : 1 ≤ D - 1) (by omega) hdb'
      change getFullYear tz (parseDate Y M D) = Y at fy
      change getMonth tz (parseDate Y M D) = M - 1 at fm
      change getDate tz (parseDate Y M D) = D - 1 at fd
      have hA : MakeDay (Y + k) (M - 1) (D - 1) = MakeDay (Y + k) (M - 1) D - 1 := by
        unfold MakeDay; ring
      have h := position_in_first_week tz (parseDate Y M D) now (Y + k)
        (by rw [hnY]; omega) (by rw [hnY, fm, fd, hdn, hA]; intro hlt; omega)
        (by rw [fm, fd, hdn, hA]; omega) (by rw [fm, fd, hdn, hA]; omega)
      rw [fy] at h
      refine ⟨?_, h.2.1, ?_⟩
      · rw [h.1]; ring
      · rw [h.2.2]; ring
    · have hD1' : D = 1 := by omega
      subst hD1'
      by_cases hM2 : 2 ≤ M
      · -- first of a month other than January: the day before ends the month before
        have hs := MonthStart_succ (InLeapYear Y) (by omega : 0 ≤ M - 2) (by omega : M - 2 ≤ 10)
        have hs' := MonthStart_succ (InLeapYear (Y + k)) (by omega : 0 ≤ M - 2)
          (by omega : M - 2 ≤ 10)
        rw [show M - 2 + 1 = M - 1 by ring] at hs hs'
        obtain ⟨b28, b31⟩ := DaysInMonth_bounds (M - 2) (InLeapYear Y) l0 l1
        have hdb' : Day (LocalTime tz (parseDate Y M 1)) =
            MakeDay Y (M - 2) (DaysInMonth (M - 2) (InLeapYear Y)) := by
          rw [hdb, MakeDay_eq _ _ hm0 hm11, MakeDay_eq _ _ (by omega : 0 ≤ M - 2) (by omega), hs]
          ring
        obtain ⟨fy, fm, fd⟩ := fields_of_MakeDay (LocalTime tz (parseDate Y M 1))
          (by omega : 0 ≤ M - 2) (by omega : M - 2 ≤ 11) (by omega) le_rfl hdb'
        change getFullYear tz (parseDate Y M 1) = Y at fy
        change getMonth tz (parseDate Y M 1) = M - 2 at fm
        change getDate tz (parseDate Y M 1) = DaysInMonth (M - 2) (InLeapYear Y) at fd
        have e1 := DaysInMonth_leap (M - 2) (InLeapYear Y) (InLeapYear (Y + k)) l0 l1 k0 k1
        have e2 := DaysInMonth_leap (M - 2) (InLeapYear (Y + k)) (InLeapYear Y) k0 k1 l0 l1
        have hA : MakeDay (Y + k) (M - 2) (DaysInMonth (M - 2) (InLeapYear Y)) =
            MakeDay (Y + k) (M - 1) 1 - DaysInMonth (M - 2) (InLeapYear (Y + k)) +
              DaysInMonth (M - 2) (InLeapYear Y) - 1 := by
          rw [MakeDay_eq _ _ hm0 hm11, MakeDay_eq _ _ (by omega : 0 ≤ M - 2) (by omega), hs']
          ring
        have h := position_in_first_week tz (parseDate Y M 1) now (Y + k)
          (by rw [hnY]; omega) (by rw [hnY, fm, fd, hdn, hA]; intro hlt; omega)
          (by rw [fm, fd, hdn, hA]; omega) (by rw [fm, fd, hdn, hA]; omega)
        rw [fy] at h
        refine ⟨?_, h.2.1, ?_⟩
        · rw [h.1]; ring
        · rw [h.2.2]; ring
      · -- the first of January: the day before is 31 December of the year before
        have hM1' : M = 1 := by omega
        subst hM1'
        have e0 : (1 : ℤ) - 1 = 0 := by norm_num
        rw [e0] at hdn hdb
        have z0 : (0 : ℤ) ≤ 0 := le_rfl
        have z11 : (0 : ℤ) ≤ 11 := by omega
        have hY1 := DayFromYear_succ (Y - 1)
        rw [show Y - 1 + 1 = Y by ring] at hY1
        have hdb' : Day (LocalTime tz (parseDate Y 1 1)) = MakeDay (Y - 1) 11 31 := by
          rw [hdb, MakeDay_eq _ _ z0 z11, MakeDay_eq _ _ z11 le_rfl,
            (MonthStart_values (InLeapYear (Y - 1))).2.2.2.2.2.2.2.2.2.2.2,
            (MonthStart_values (InLeapYear Y)).1, hY1]
          ring
        obtain ⟨fy, fm, fd⟩ := fields_of_MakeDay (LocalTime tz (parseDate Y 1 1))
          z11 le_rfl (by omega : (1 : ℤ) ≤ 31)
          (by unfold DaysInMonth; norm_num) hdb'
        change getFullYear tz (parseDate Y 1 1) = Y - 1 at fy
        change getMonth tz (parseDate Y 1 1) = 11 at fm
        change getDate tz (parseDate Y 1 1) = 31 at fd
        have hYk := DayFromYear_succ (Y + k - 1)
        rw [show Y + k - 1 + 1 = Y + k by ring] at hYk
        have hA : MakeDay (Y + k - 1) 11 31 = MakeDay (Y + k) 0 1 - 1 := by
          rw [MakeDay_eq _ _ z0 z11, MakeDay_eq _ _ z11 le_rfl,
            (MonthStart_values (InLeapYear (Y + k - 1))).2.2.2.2.2.2.2.2.2.2.2,
            (MonthStart_values (InLeapYear (Y + k))).1, hYk]
          ring
        rw [fy] at hyear
        have h := position_in_first_week tz (parseDate Y 1 1) now (Y + k - 1)
          (by rw [hnY]; omega) (by rw [hnY]; intro _; omega)
          (by rw [fm, fd, hdn, hA]; omega) (by rw [fm, fd, hdn, hA]; omega)
        rw [fy] at h
        refine ⟨?_, h.2.1, ?_⟩
        · rw [h.1]; ring
        · rw [h.2.2]; ring

/-- The anniversary values for the birthdate 1990-06-15 at noon UTC of 2024-06-15. -/
theorem anniversary_position_witness :
    -msPerDay < (0 : ℤ) ∧ (0 : ℤ) < msPerDay ∧ (1 : ℤ) ≤ 6 ∧ (6 : ℤ) ≤ 12 ∧ (1 : ℤ) ≤ 15 ∧
    15 ≤ DaysInMonth (6 - 1) (InLeapYear 1990) ∧ (0 : ℤ) ≤ 34 ∧
    100 ≤ getFullYear 0 (parseDate 1990 6 15) ∧
    getFullYear 0 (parseDate 2024 6 15 + 43200000) = 1990 + 34 ∧
    getMonth 0 (parseDate 2024 6 15 + 43200000) = 6 - 1 ∧
    getDate 0 (parseDate 2024 6 15 + 43200000) = 15 ∧
    (calculateLifePosition 0 (parseDate 1990 6 15)
      (parseDate 2024 6 15 + 43200000)).totalWeeksLived = 52 * 34 :=
  ⟨by decide, by decide, by decide, by decide, by decide, by decide, by decide, by decide,
    by decide, by decide, by decide,
    (anniversary_position 0 1990 6 15 34 (parseDate 2024 6 15 + 43200000) (by decide)
      (by decide) (by decide) (by decide) (by decide) (by decide) (by decide) (by decide)
      (by decide) (by decide) (by decide)).1.2.2⟩

/-! ## Week of the calendar year -/

/-- Claim C12 at its failing inputs, on a machine in UTC: just after midnight of
2023-12-31 (and of 2024-12-30, a leap year) `getWeekOfYear` returns 53, and at
exactly 2023-01-01T00:00:00.000 it returns 0, where its documentation and the
claim say 1 to 52; one millisecond later it returns 1, and at exactly
2023-12-31T00:00:00.000 it returns 52. -/
theorem getWeekOfYear_outside_1_52 :
    getWeekOfYear 0 (parseDate 2023 12 31 + 1) = 53 ∧
    getWeekOfYear 0 (parseDate 2024 12 30 + 1) = 53 ∧
    getWeekOfYear 0 (parseDate 2023 1 1) = 0 ∧
    getWeekOfYear 0 (parseDate 2023 1 1 + 1) = 1 ∧
    getWeekOfYear 0 (parseDate 2023 12 31) = 52 := by
  decide

/-! ## Cell size formulas -/

theorem cellPaddingPercent_eq (w : ℚ) : (getSizingForResolution w).cellPaddingPercent = 0.18 := by
  rw [getSizingForResolution_cases]
  split_ifs <;> rfl

/-- Claim C13: for every positive width and height `calculateCellSize` returns
`cellSize = min (0.85 * w / 80) (0.75 * h / 52) * 1.08`,
`circleRadius = max 3 (round (cellSize * p.circleRadiusPercent))` and
`cellPadding = cellSize * 0.18` with `p = getSizingForResolution w`; every profile
has the padding factor 0.18, so `cellPadding / cellSize` is 0.18 for every width. -/
theorem calculateCellSize_formulas (w h : ℚ) (hw : 0 < w) (hh : 0 < h) :
    (calculateCellSize w h).cellSize = min (0.85 * w / 80) (0.75 * h / 52) * 1.08 ∧
    (calculateCellSize w h).circleRadius =
      max 3 (Math_round ((calculateCellSize w h).cellSize *
        (getSizingForResolution w).circleRadiusPercent)) ∧
    (calculateCellSize w h).cellPadding = (calculateCellSize w h).cellSize * 0.18 ∧
    (∀ p ∈ SPACING_SCALE.values, p.cellPaddingPercent = 0.18) ∧
    (calculateCellSize w h).cellPadding / (calculateCellSize w h).cellSize = 0.18 := by
  have hc := cellSize_pos w h hw hh
  have hpad : (calculateCellSize w h).cellPadding = (calculateCellSize w h).cellSize * 0.18 := by
    have := cellPaddingPercent_eq w
    simp only [calculateCellSize] at this ⊢
    rw [this]
  refine ⟨?_, rfl, hpad, ?_, ?_⟩
  · rw [cellSize_eq, mul_comm w, mul_comm h]
  · intro p hp
    simp only [SPACING_SCALE.values, List.mem_cons, List.mem_singleton, List.not_mem_nil,
      or_false] at hp
    rcases hp with rfl | rfl | rfl | rfl <;> rfl
  · rw [hpad, mul_comm, mul_div_assoc, div_self (ne_of_gt hc), mul_one]

/-- The statement of C13 on the default screen, 1920 by 1080. -/
theorem calculateCellSize_formulas_witness :
    (0 : ℚ) < 1920 ∧ (0 : ℚ) < 1080 ∧
    (calculateCellSize 1920 1080).cellPadding / (calculateCellSize 1920 1080).cellSize = 0.18 :=
  ⟨by norm_num, by norm_num,
    (calculateCellSize_formulas 1920 1080 (by norm_num) (by norm_num)).2.2.2.2⟩

/-! ## Theme lookup -/

/-- Names that are neither `"light"` nor inherited from `Object.prototype` get
the dark palette. -/
theorem getTheme_fallback (name : String) (h1 : name ≠ "light")
    (h2 : name ∉ Object_prototype_keys) :
    getTheme (some name) = ThemeValue.palette THEMES.dark := by
  unfold getTheme THEMES_lookup
  simp only [Option.getD_some]
  by_cases hd : name = "dark"
  · simp [hd]
  · simp [hd, h1, h2]

/-- Claim C14 at its failing input: `getTheme` returns the light palette for
`"light"` and the dark palette for `"dark"`, for a missing name and for the
unknown name `"blue"`, but for the name `"constructor"` (and likewise
`"toString"`, `"__proto__"`) it returns the member that `THEMES` inherits from
`Object.prototype`, which is not the dark palette. -/
theorem getTheme_inherited_name :
    getTheme (some "light") = ThemeValue.palette THEMES.light ∧
    getTheme (some "dark") = ThemeValue.palette THEMES.dark ∧
    getTheme none = ThemeValue.palette THEMES.dark ∧
    getTheme (some "blue") = ThemeValue.palette THEMES.dark ∧
    getTheme (some "constructor") = ThemeValue.inherited "constructor" ∧
    getTheme (some "toString") = ThemeValue.inherited "toString" ∧
    getTheme (some "__proto__") = ThemeValue.inherited "__proto__" ∧
    getTheme (some "constructor") ≠ ThemeValue.palette THEMES.dark := by
  decide

/-! ## Cells drawn as current and as past -/

/-- Membership in the list the grid loop produces: one entry per cell of the
80 by 52 grid, carrying the marker of that cell. -/
theorem mem_drawGrid (theme : Theme) (t : ℤ) (e : ℕ × ℕ × Marker) :
    e ∈ drawGrid theme t ↔
      e.1 < 80 ∧ e.2.1 < 52 ∧ e.2.2 = gridMarker theme t e.1 e.2.1 := by
  obtain ⟨y, w, m⟩ := e
  simp only [drawGrid, YEARS, WEEKS_PER_YEAR, List.mem_flatten, List.mem_map, List.mem_range]
  constructor
  · rintro ⟨l, ⟨w', hw', rfl⟩, hmem⟩
    simp only [List.mem_map, List.mem_range, Prod.mk.injEq] at hmem
    obtain ⟨y', hy', rfl, rfl, rfl⟩ := hmem
    exact ⟨hy', hw', rfl⟩
  · rintro ⟨hy, hw, hm⟩
    refine ⟨_, ⟨w, hw, rfl⟩, ?_⟩
    simp only [List.mem_map, List.mem_range, Prod.mk.injEq]
    refine ⟨y, hy, ?_⟩
    simpa using hm.symm

theorem drawGrid_nodup (theme : Theme) (t : ℤ) : (drawGrid theme t).Nodup := by
  unfold drawGrid
  rw [List.nodup_flatten]
  constructor
  · intro l hl
    simp only [List.mem_map, List.mem_range] at hl
    obtain ⟨w, _, rfl⟩ := hl
    refine List.Nodup.map_on ?_ (List.nodup_range _)
    intro a _ b _ hab
    simp only [Prod.mk.injEq] at hab
    exact hab.1
  · rw [List.pairwise_map]
    refine List.Pairwise.imp ?_ (List.nodup_range _)
    intro a b hab
    rw [List.disjoint_left]
    intro e he1 he2
    simp only [List.mem_map, List.mem_range] at he1 he2
    obtain ⟨y1, _, rfl⟩ := he1
    obtain ⟨y2, _, h2⟩ := he2
    simp only [Prod.mk.injEq] at h2
    exact hab h2.2.1.symm

theorem drawGrid_length (theme : Theme) (t : ℤ) : (drawGrid theme t).length = 4160 := by
  simp [drawGrid, YEARS, WEEKS_PER_YEAR, Function.comp_def]

/-- The marker of a cell is the past disc exactly below `totalWeeksLived` and the
thick current circle exactly at it. -/
theorem gridMarker_past_iff (theme : Theme) (t : ℤ) (y w : ℕ) :
    gridMarker theme t y w = Marker.filled theme.pastWeeks ↔ (y : ℤ) * 52 + w < t := by
  simp only [gridMarker, WEEKS_PER_YEAR, Nat.cast_ofNat, decide_eq_true_eq]
  by_cases h : (y : ℤ) * 52 + w < t
  · simp [h]
  · by_cases h2 : (y : ℤ) * 52 + w = t <;> simp [h, h2]

theorem gridMarker_current_iff (theme : Theme) (t : ℤ) (y w : ℕ) :
    gridMarker theme t y w = Marker.outlined theme.currentWeek 4 ↔ (y : ℤ) * 52 + w = t := by
  simp only [gridMarker, WEEKS_PER_YEAR, Nat.cast_ofNat, decide_eq_true_eq]
  by_cases h : (y : ℤ) * 52 + w < t
  · have : ¬ (y : ℤ) * 52 + w = t := by omega
    simp [h, this]
  · by_cases h2 : (y : ℤ) * 52 + w = t <;> simp [h, h2]

theorem mem_filter_past (theme : Theme) (t : ℤ) (e : ℕ × ℕ × Marker) :
    e ∈ (drawGrid theme t).filter (fun e => decide (e.2.2 = Marker.filled theme.pastWeeks)) ↔
      e.1 < 80 ∧ e.2.1 < 52 ∧ e.2.2 = gridMarker theme t e.1 e.2.1 ∧
        (e.1 : ℤ) * 52 + e.2.1 < t := by
  rw [List.mem_filter, mem_drawGrid, decide_eq_true_eq]
  constructor
  · rintro ⟨⟨h1, h2, h3⟩, h4⟩
    exact ⟨h1, h2, h3, (gridMarker_past_iff theme t e.1 e.2.1).1 (h3 ▸ h4)⟩
  · rintro ⟨h1, h2, h3, h4⟩
    exact ⟨⟨h1, h2, h3⟩, h3.trans ((gridMarker_past_iff theme t e.1 e.2.1).2 h4)⟩

theorem mem_filter_current (theme : Theme) (t : ℤ) (e : ℕ × ℕ × Marker) :
    e ∈ (drawGrid theme t).filter
        (fun e => decide (e.2.2 = Marker.outlined theme.currentWeek 4)) ↔
      e.1 < 80 ∧ e.2.1 < 52 ∧ e.2.2 = Marker.outlined theme.currentWeek 4 ∧
        (e.1 : ℤ) * 52 + e.2.1 = t := by
  rw [List.mem_filter, mem_drawGrid, decide_eq_true_eq]
  constructor
  · rintro ⟨⟨h1, h2, h3⟩, h4⟩
    exact ⟨h1, h2, h4, (gridMarker_current_iff theme t e.1 e.2.1).1 (h3 ▸ h4)⟩
  · rintro ⟨h1, h2, h3, h4⟩
    exact ⟨⟨h1, h2, h3.trans ((gridMarker_current_iff theme t e.1 e.2.1).2 h4).symm⟩, h3⟩

/-- The cells drawn as past, counted: as many as there are indices below
`totalWeeksLived` in the grid. -/
theorem past_count (theme : Theme) (t : ℤ) (h0 : 0 ≤ t) (h1 : t ≤ 4160) :
    (((drawGrid theme t).filter
      (fun e => decide (e.2.2 = Marker.filled theme.pastWeeks))).length : ℤ) = t := by
  have hperm : (((drawGrid theme t).filter
      (fun e => decide (e.2.2 = Marker.filled theme.pastWeeks))).map
        (fun e => e.1 * 52 + e.2.1)).Perm (List.range t.toNat) := by
    rw [List.perm_ext_iff_of_nodup ?_ (List.nodup_range _)]
    · intro i
      simp only [List.mem_map, List.mem_range]
      constructor
      · rintro ⟨e, he, rfl⟩
        rw [mem_filter_past] at he
        omega
      · intro hi
        refine ⟨(i / 52, i % 52, gridMarker theme t (i / 52) (i % 52)), ?_, ?_⟩
        · rw [mem_filter_past]
          refine ⟨?_, ?_, rfl, ?_⟩ <;> simp only <;> omega
        · simp only
          omega
    · refine List.Nodup.map_on ?_ ((drawGrid_nodup theme t).filter _)
      intro a ha b hb hab
      rw [mem_filter_past] at ha hb
      obtain ⟨y, w, m⟩ := a
      obtain ⟨y', w', m'⟩ := b
      simp only at ha hb hab
      have hy : y = y' := by omega
      have hw : w = w' := by omega
      subst hy hw
      rw [ha.2.2.1, hb.2.2.1]
  have hlen := hperm.length_eq
  rw [List.length_map, List.length_range] at hlen
  rw [hlen]
  omega

/-- Claim C15: the index `year * 52 + week` is injective on the 80 by 52 grid; for
`0 ≤ totalWeeksLived < 4160` the grid loop draws exactly one cell as the current
week, the cell `(t div 52, t mod 52)`, and exactly `t` cells as past; for
`totalWeeksLived ≥ 4160` it draws no cell as current and all 4160 cells as past. -/
theorem drawGrid_current_and_past (theme : Theme) (t : ℤ) :
    (∀ y w y' w' : ℕ, y < 80 → w < 52 → y' < 80 → w' < 52 →
      y * 52 + w = y' * 52 + w' → y = y' ∧ w = w') ∧
    (0 ≤ t → t < 4160 →
      (drawGrid theme t).filter (fun e => decide (e.2.2 = Marker.outlined theme.currentWeek 4))
        = [((t / 52).toNat, (t % 52).toNat, Marker.outlined theme.currentWeek 4)] ∧
      (((drawGrid theme t).filter
        (fun e => decide (e.2.2 = Marker.filled theme.pastWeeks))).length : ℤ) = t) ∧
    (4160 ≤ t →
      (drawGrid theme t).filter (fun e => decide (e.2.2 = Marker.outlined theme.currentWeek 4))
        = [] ∧
      ((drawGrid theme t).filter
        (fun e => decide (e.2.2 = Marker.filled theme.pastWeeks))).length = 4160 ∧
      (drawGrid theme t).length = 4160) := by
  refine ⟨fun y w y' w' hy hw hy' hw' h => by omega, fun h0 h1 => ⟨?_, ?_⟩, fun h => ⟨?_, ?_, ?_⟩⟩
  · rw [← List.perm_singleton,
      List.perm_ext_iff_of_nodup ((drawGrid_nodup theme t).filter _) (List.nodup_singleton _)]
    intro e
    rw [mem_filter_current, List.mem_singleton]
    obtain ⟨y, w, m⟩ := e
    simp only [Prod.mk.injEq]
    constructor
    · rintro ⟨hy, hw, hm, hidx⟩
      refine ⟨?_, ?_, hm⟩ <;> omega
    · rintro ⟨rfl, rfl, rfl⟩
      refine ⟨?_, ?_, rfl, ?_⟩ <;> omega
  · exact past_count theme t h0 (by omega)
  · rw [List.filter_eq_nil_iff]
    intro e he
    rw [mem_drawGrid] at he
    rw [decide_eq_true_eq, he.2.2, gridMarker_current_iff]
    omega
  · have hall : (drawGrid theme t).filter
        (fun e => decide (e.2.2 = Marker.filled theme.pastWeeks)) = drawGrid theme t := by
      rw [List.filter_eq_self]
      intro e he
      rw [mem_drawGrid] at he
      rw [decide_eq_true_eq, he.2.2, gridMarker_past_iff]
      omega
    rw [hall, drawGrid_length]
  · exact drawGrid_length theme t

/-- The statement of C15 for `totalWeeksLived = 1768` under the dark theme: the one
current cell is week 0 of year 34. -/
theorem drawGrid_current_and_past_witness :
    (0 : ℤ) ≤ 1768 ∧ (1768 : ℤ) < 4160 ∧
    (drawGrid THEMES.dark 1768).filter
        (fun e => decide (e.2.2 = Marker.outlined THEMES.dark.currentWeek 4))
      = [(((1768 : ℤ) / 52).toNat, ((1768 : ℤ) % 52).toNat,
          Marker.outlined THEMES.dark.currentWeek 4)] :=
  ⟨by decide, by decide,
    ((drawGrid_current_and_past THEMES.dark 1768).2.1 (by decide) (by decide)).1⟩

/-! ## Credit colour -/

/-- Claim C16 at its failing inputs: for the unknown theme name `"blue"` and for a
missing name `getTheme` yields the dark palette, yet `creditColor` is the
light-theme value `#4C3A2C`; only for `"dark"` and `"light"` do the two agree. -/
theorem creditColor_disagrees_with_getTheme :
    getTheme (some "blue") = ThemeValue.palette THEMES.dark ∧
    creditColor (some "blue") = "#4C3A2C" ∧
    getTheme none = ThemeValue.palette THEMES.dark ∧
    creditColor none = "#4C3A2C" ∧
    getTheme (some "dark") = ThemeValue.palette THEMES.dark ∧
    creditColor (some "dark") = "#B08D57" ∧
    getTheme (some "light") = ThemeValue.palette THEMES.light ∧
    creditColor (some "light") = "#4C3A2C" := by
  decide

end LifeCalendar
